import Mathlib

/-!
# UrduWhiz frontend: authenticated-session lifecycle

A shallow embedding of the session code of the UrduWhiz browser client:

* `api/authAxios.js`      : the request interceptor and the 401/refresh response interceptor,
* `api/axios.js`          : the plain client without interceptors,
* `context/AuthContext.jsx` : `login`, `logout`, `initializeAuth`,
* `components/ProtectedRoute.jsx`,
* `pages/auth/SignIn.jsx` : `handleLogin`,
* `pages/ChatPage.jsx`    : `sendMessage`, `fetchSessions`, `loadSession`, `deleteSession`,
  `handleFileUpload`, `handleNewChat`, and the conditions under which its controls are there,
* `pages/auth/GoogleRedirectHandler.jsx`,
* `pages/auth/ForgotPassword.jsx`, `pages/auth/ResetPassword.jsx`, and `validatePassword` of
  `pages/auth/SignUp.jsx`.

JavaScript runs on one event loop and a callback turn is never preempted, so the only places
where something else can happen are the `await`s on network calls.  A call of `authAxios` is
therefore a small machine (`Task`) that is advanced by delivering one backend response at a
time; the browser state every turn can read and write is `World`.  The handlers of the chat
page are cut at their `await`s in the same way: the part before, and the part that runs on
once the call is settled, with the values the closure captured at the call (`Pending`).
-/

namespace UrduWhiz

/-! ## JavaScript values -/

/-- A JavaScript value as it occurs in a field of a JSON body.  `ref` is any non-primitive
value (array or object); it carries what its string conversion yields. -/
inductive JsVal where
  | undefined
  | null
  | bool (b : Bool)
  | num (n : Int)
  | str (s : String)
  | ref (rendering : String)
  deriving DecidableEq, Repr

/-- Truthiness, as tested by `if (v)`, `!v`, `v || w`. -/
def JsVal.truthy : JsVal → Bool
  | .undefined => false
  | .null => false
  | .bool b => b
  | .num n => n != 0
  | .str s => s != ""
  | .ref _ => true

/-- String conversion, as done by `"Bearer " + v` and by `localStorage.setItem(k, v)`. -/
def JsVal.toJsString : JsVal → String
  | .undefined => "undefined"
  | .null => "null"
  | .bool true => "true"
  | .bool false => "false"
  | .num n => toString n
  | .str s => s
  | .ref r => r

/-- A JSON object: its own fields, in order. -/
abbrev JsObj := List (String × JsVal)

/-- Property read `o.k`; a field that is not there reads as `undefined`. -/
def JsObj.get (o : JsObj) (k : String) : JsVal :=
  match o.lookup k with
  | some v => v
  | none => .undefined

/-! ## Requests, responses, errors -/

/-- Request headers, by name. -/
abbrev Headers := List (String × String)

/-- Property write `headers[k] = v`: overwrite the entry when it is there, else add it. -/
def Headers.set : Headers → String → String → Headers
  | [], k, v => [(k, v)]
  | (k0, v0) :: rest, k, v =>
    if k0 = k then (k, v) :: rest else (k0, v0) :: Headers.set rest k v

/-- Property read `headers[k]`. -/
def Headers.get (h : Headers) (k : String) : Option String := h.lookup k

/-- An axios request config.  `_retry` is the flag the response interceptor puts on the
config; a config that never went through it has no such property, which reads as false. -/
structure Config where
  url : String
  method : String
  headers : Headers := []
  data : Option JsObj := none
  _retry : Bool := false
  deriving DecidableEq, Repr

/-- What the network hands back for one call: a status and a body.  `data` holds the named
fields of the body, `none` when the body is `null`; `rows` holds its elements when the body
is a JSON array (of objects), in which case property reads find no named field. -/
structure Response where
  status : Nat
  data : Option JsObj
  rows : Option (List JsObj) := none
  deriving DecidableEq, Repr

/-- The reply to one network call: `none` when no response arrives at all. -/
abbrev Reply := Option Response

/-- What a rejected promise carries.  `axios` is an AxiosError with its `config` and, when
the backend answered, its `response`; `typeError` is the TypeError raised by reading a
property of `null`/`undefined` or by calling something that is not a function. -/
inductive Failure where
  | axios (config : Config) (response : Option Response)
  | typeError
  deriving DecidableEq, Repr

/-- Reading `error.response?.status`. -/
def Failure.status? : Failure → Option Nat
  | .axios _ (some r) => some r.status
  | _ => none

/-- A settled promise of an HTTP call. -/
inductive Outcome where
  | fulfilled (response : Response) (config : Config)
  | rejected (error : Failure)
  deriving DecidableEq, Repr

/-- The default `validateStatus` of axios: a response resolves iff its status is 2xx. -/
def validateStatus (status : Nat) : Bool := decide (200 ≤ status) && decide (status < 300)

/-- How axios settles a dispatched request `cfg` once the reply is there, before any
response interceptor runs. -/
def settle (cfg : Config) : Reply → Outcome
  | none => .rejected (.axios cfg none)
  | some r => if validateStatus r.status then .fulfilled r cfg else .rejected (.axios cfg (some r))

/-! ## Browser state -/

/-- The three HTTP clients of the frontend: `authAxios` (api/authAxios.js), `axiosInstance`
(api/axios.js) and the bare `axios` import used for the refresh call. -/
inductive Client where
  | authAxios
  | axiosInstance
  | axios
  deriving DecidableEq, Repr

/-- One network call that left the browser. -/
structure Call where
  client : Client
  config : Config
  deriving DecidableEq, Repr

/-- The browser state shared by all turns: the two `localStorage` keys the frontend uses, the
number of `window.location.reload()` calls, the texts shown by `alert`, and the network calls
issued so far, oldest first. -/
structure World where
  accessToken : Option String := none
  justLoggedIn : Option String := none
  reloads : Nat := 0
  alerts : List String := []
  trace : List Call := []
  deriving DecidableEq, Repr

/-- Truthiness of what `localStorage.getItem` returns: `null` and the empty string are
falsy. -/
def tokenTruthy : Option String → Bool
  | some t => t != ""
  | none => false

/-! ## api/authAxios.js -/

/-- The request interceptor (authAxios.js, lines 10-16). -/
def requestInterceptor (w : World) (config : Config) : Config :=
  match w.accessToken with
  | some token =>
    if token ≠ "" then
      { config with headers := config.headers.set "Authorization" ("Bearer " ++ token) }
    else config
  | none => config

/-- The config of the refresh call (authAxios.js, lines 27-31). -/
def refreshConfig : Config := { url := "/auth/refresh-token", method := "post", data := some [] }

/-- The refresh call, as it appears in the trace. -/
def refreshCall : Call := { client := .axios, config := refreshConfig }

/-- A call of `authAxios` between two turns of the event loop. -/
inductive Task where
  /-- the request `config` is on the wire -/
  | awaitingResponse (config : Config)
  /-- inside the response interceptor, at `await axios.post("/auth/refresh-token", ...)`;
  `error` is the rejection that started it -/
  | awaitingRefresh (originalRequest : Config) (error : Failure)
  /-- the promise returned to the caller is settled -/
  | settled (outcome : Outcome)
  deriving DecidableEq, Repr

/-- Calling `authAxios(config)`: the request interceptor runs, the request leaves.  (axios
merges `config` into the instance defaults and keeps properties it does not know, so a
`_retry` flag put on a config by the response interceptor is still there on the resend.) -/
def authAxios (w : World) (config : Config) : World × Task :=
  let sent := requestInterceptor w config
  ({ w with trace := w.trace ++ [{ client := .authAxios, config := sent }] }, .awaitingResponse sent)

/-- The rejection handler of the response interceptor up to its first `await`
(authAxios.js, lines 21-31 and 44). -/
def onRejected (w : World) (error : Failure) : World × Task :=
  match error with
  | .axios originalRequest (some response) =>
    if response.status = 401 ∧ originalRequest._retry = false then
      ({ w with trace := w.trace ++ [refreshCall] },
        .awaitingRefresh { originalRequest with _retry := true } error)
    else (w, .settled (.rejected error))
  | _ => (w, .settled (.rejected error))

/-- The `catch (refreshError)` block (authAxios.js, lines 38-42). -/
def onRefreshError (w : World) (refreshError : Failure) : World × Task :=
  ({ w with accessToken := none, reloads := w.reloads + 1 }, .settled (.rejected refreshError))

/-- The rest of the `try` block once the refresh call has settled (authAxios.js, lines 32-37),
and the `catch` block when it threw. -/
def onRefreshSettled (w : World) (originalRequest : Config) : Outcome → World × Task
  | .rejected refreshError => onRefreshError w refreshError
  | .fulfilled refreshResponse _ =>
    match refreshResponse.data with
    | none => onRefreshError w .typeError
    | some data =>
      let newAccessToken := (JsObj.get data "access_token").toJsString
      let w1 := { w with accessToken := some newAccessToken }
      let retried := { originalRequest with
        headers := originalRequest.headers.set "Authorization" ("Bearer " ++ newAccessToken) }
      authAxios w1 retried

/-- One turn of the event loop for a call of `authAxios`: the reply to its pending network
call arrives. -/
def Task.deliver (w : World) : Task → Reply → World × Task
  | .awaitingResponse config, reply =>
    match settle config reply with
    | .fulfilled response cfg => (w, .settled (.fulfilled response cfg))
    | .rejected error => onRejected w error
  | .awaitingRefresh originalRequest _, reply =>
    onRefreshSettled w originalRequest (settle refreshConfig reply)
  | .settled outcome, _ => (w, .settled outcome)

/-- Advance one call by the replies of the backend, in the order they arrive, until it is
settled or the replies are used up. -/
def Task.run (w : World) (t : Task) : List Reply → World × Task
  | [] => (w, t)
  | reply :: rest =>
    match t with
    | .settled outcome => (w, .settled outcome)
    | _ => Task.run (Task.deliver w t reply).1 (Task.deliver w t reply).2 rest

/-- The promise returned by `authAxios(config)` after the backend replied with `replies`:
`none` while it is still pending. -/
def Task.outcome? : Task → Option Outcome
  | .settled outcome => some outcome
  | _ => none

/-- Calling `authAxios(config)` and letting the backend answer with `replies`. -/
def authAxiosRun (w : World) (config : Config) (replies : List Reply) : World × Task :=
  Task.run (authAxios w config).1 (authAxios w config).2 replies

/-- The number of calls to the refresh endpoint in a trace. -/
def refreshCalls (trace : List Call) : Nat := trace.count refreshCall

/-- The number of times a request left through `authAxios` in a trace. -/
def authAxiosCalls (trace : List Call) : Nat :=
  (trace.filter (fun c => decide (c.client = Client.authAxios))).length

/-- Several calls of `authAxios` in flight at once over one browser state. -/
structure Flight where
  world : World
  tasks : List Task
  deriving DecidableEq, Repr

/-- A component calls `authAxios(config)` while other calls are in flight. -/
def Flight.send (f : Flight) (config : Config) : Flight :=
  { world := (authAxios f.world config).1, tasks := f.tasks ++ [(authAxios f.world config).2] }

/-- The reply to the pending network call of the `i`-th call in flight arrives. -/
def Flight.deliverTo (f : Flight) (i : Nat) (reply : Reply) : Flight :=
  match f.tasks.get? i with
  | none => f
  | some t =>
    { world := (Task.deliver f.world t reply).1,
      tasks := f.tasks.set i (Task.deliver f.world t reply).2 }

/-! ## context/AuthContext.jsx -/

/-- The React state of `AuthProvider`: `user` (`null` is `none`) and `isLoading`, with the
initial values of their `useState`. -/
structure AuthState where
  user : Option JsObj := none
  isLoading : Bool := true
  deriving DecidableEq, Repr

/-- How far an async handler got with the replies it was given. -/
inductive Completion where
  /-- still suspended at an `await` -/
  | pending
  /-- ran to its end -/
  | returned
  /-- ended by an exception nobody caught -/
  | threw
  deriving DecidableEq, Repr

/-- Reading `userData?.is_verified`. -/
def isVerifiedOf : Option JsObj → JsVal
  | some userData => JsObj.get userData "is_verified"
  | none => .undefined

/-- The function `login` (AuthContext.jsx, lines 19-26). -/
def login (w : World) (s : AuthState) (userData : Option JsObj) (token : JsVal) :
    World × AuthState :=
  if (isVerifiedOf userData).truthy then
    ({ w with accessToken := some token.toJsString }, { s with user := userData })
  else
    ({ w with alerts := w.alerts ++ ["Please verify your email before logging in."] }, s)

/-- The request of `authAxios.post('/auth/logout')`. -/
def logoutConfig : Config := { url := "/auth/logout", method := "post" }

/-- The function `logout` (AuthContext.jsx, lines 28-36), the backend answering with `replies`.
Both arms of its `try`/`catch` fall through to the end. -/
def logout (w : World) (s : AuthState) (replies : List Reply) :
    World × AuthState × Completion :=
  let s1 := { s with user := none }
  let w1 := { w with accessToken := none }
  let r := authAxiosRun w1 logoutConfig replies
  match r.2.outcome? with
  | none => (r.1, s1, .pending)
  | some _ => (r.1, s1, .returned)

/-- The part of `window.location` the boot code reads and rewrites: the path, and the query
string as `URLSearchParams` sees it, a list of name/value pairs. -/
structure Location where
  pathname : String
  search : List (String × String) := []
  hash : String := ""
  deriving DecidableEq, Repr

/-- The request of `authAxios.get("/auth/me")`. -/
def meConfig : Config := { url := "/auth/me", method := "get" }

/-- The function `initializeAuth` (AuthContext.jsx, lines 43-77), the backend answering with
`replies`. -/
def initializeAuth (w : World) (s : AuthState) (loc : Location) (replies : List Reply) :
    World × AuthState × Location × Completion :=
  let token := loc.search.lookup "access_token"
  let w1 := if tokenTruthy token then { w with accessToken := token } else w
  let loc1 :=
    if tokenTruthy token then
      { loc with search := loc.search.filter (fun p => p.1 ≠ "access_token"), hash := "" }
    else loc
  if tokenTruthy w1.accessToken then
    let r := authAxiosRun w1 meConfig replies
    match r.2.outcome? with
    | none => (r.1, s, loc1, .pending)
    | some (.fulfilled response _) =>
      (r.1, { user := response.data, isLoading := false }, loc1, .returned)
    | some (.rejected error) =>
      if error.status? = some 401 then
        ({ r.1 with accessToken := none }, { user := none, isLoading := false }, loc1, .returned)
      else (r.1, { s with isLoading := false }, loc1, .returned)
  else (w1, { s with isLoading := false }, loc1, .returned)

/-! ## components/ProtectedRoute.jsx -/

/-- What `ProtectedRoute` renders. -/
inductive View where
  | loadingScreen
  | navigateHome
  | children
  deriving DecidableEq, Repr

/-- The component `ProtectedRoute` (ProtectedRoute.jsx, lines 6-26). -/
def ProtectedRoute (s : AuthState) : View :=
  if s.isLoading then .loadingScreen
  else if s.user.isNone then .navigateHome
  else .children

/-! ## pages/auth/SignIn.jsx -/

/-- The React state of `LoginForm`, and where it last navigated to. -/
structure LoginForm where
  identifier : String := ""
  password : String := ""
  error : String := ""
  navigatedTo : Option String := none
  deriving DecidableEq, Repr

/-- A call through `axiosInstance` (api/axios.js), which has no interceptors, leaves. -/
def axiosInstance (w : World) (config : Config) : World :=
  { w with trace := w.trace ++ [{ client := .axiosInstance, config := config }] }

/-- The method `String.prototype.toLowerCase`, on the ASCII letters; other characters are
left as they are. -/
def toLowerCase (s : String) : String := s.toLower

/-- The method `String.prototype.includes`. -/
def includes (s pat : String) : Bool := decide (List.IsInfix pat.toList s.toList)

/-- Reading `err.response?.data?.detail`. -/
def detailOf : Failure → JsVal
  | .axios _ (some r) =>
    match r.data with
    | some d => JsObj.get d "detail"
    | none => .undefined
  | _ => .undefined

/-- The message computed in the `catch` block of `handleLogin` (SignIn.jsx, lines 48-51);
`none` when computing it raises a TypeError (`toLowerCase` is not a function). -/
def loginErrorMessage (err : Failure) : Option String :=
  match detailOf err with
  | .undefined => some "Login failed. Please try again."
  | .null => some "Login failed. Please try again."
  | .str detail =>
    if includes (toLowerCase detail) "credentials" then some "Invalid Credentials"
    else if detail ≠ "" then some detail
    else some "Login failed. Please try again."
  | _ => none

/-- The `catch (err)` block of `handleLogin` (SignIn.jsx, lines 47-53). -/
def handleLoginCatch (w : World) (s : AuthState) (form : LoginForm) (err : Failure) :
    World × AuthState × LoginForm × Completion :=
  match loginErrorMessage err with
  | some message => (w, s, { form with error := message }, .returned)
  | none => (w, s, form, .threw)

/-- The request of `axiosInstance.post("/auth/login", formData, ...)`. -/
def loginConfig (form : LoginForm) : Config :=
  { url := "/auth/login", method := "post",
    headers := [("Content-Type", "application/x-www-form-urlencoded")],
    data := some [("username", .str form.identifier), ("password", .str form.password)] }

/-- The request of `axiosInstance.get("/auth/me", ...)` in `handleLogin`. -/
def loginMeConfig (accessToken : JsVal) : Config :=
  { url := "/auth/me", method := "get",
    headers := [("Authorization", "Bearer " ++ accessToken.toJsString)] }

/-- The function `handleLogin` (SignIn.jsx, lines 15-54), the backend answering with
`replies`: the first reply is for `/auth/login`, the second for `/auth/me`. -/
def handleLogin (w : World) (s : AuthState) (form : LoginForm) (replies : List Reply) :
    World × AuthState × LoginForm × Completion :=
  let form1 := { form with error := "" }
  let w1 := axiosInstance w (loginConfig form)
  match replies with
  | [] => (w1, s, form1, .pending)
  | reply1 :: rest =>
    match settle (loginConfig form) reply1 with
    | .rejected err => handleLoginCatch w1 s form1 err
    | .fulfilled response _ =>
      match response.data with
      | none => handleLoginCatch w1 s form1 .typeError
      | some data =>
        let accessToken := JsObj.get data "access_token"
        let w2 := { w1 with accessToken := some accessToken.toJsString }
        let w3 := axiosInstance w2 (loginMeConfig accessToken)
        match rest with
        | [] => (w3, s, form1, .pending)
        | reply2 :: _ =>
          match settle (loginMeConfig accessToken) reply2 with
          | .rejected err => handleLoginCatch w3 s form1 err
          | .fulfilled meResponse _ =>
            match meResponse.data with
            | none => handleLoginCatch w3 s form1 .typeError
            | some user =>
              if (JsObj.get user "is_verified").truthy then
                ((login w3 s (some user) accessToken).1, (login w3 s (some user) accessToken).2,
                  { form1 with navigatedTo := some "/chat" }, .returned)
              else
                (w3, s, { form1 with error := "Please verify your email before logging in." },
                  .returned)

/-! ## pages/ChatPage.jsx -/

/-- What `new Date()` yields in one turn of the event loop, as `toISOString()` and as
`toLocaleString()` render it. -/
structure Clock where
  iso : String
  locale : String
  deriving DecidableEq, Repr

/-- The React state of `ChatPage` (ChatPage.jsx, lines 63-74), with the initial values of its
`useState`s.  A message is an object with `role`, `content` and `timestamp`; a session of the
list is an object with `session_id` and `title`. -/
structure ChatState where
  sessions : List JsObj := []
  currentSession : Option JsObj := none
  messages : List JsObj := []
  inputMessage : String := ""
  isLoading : Bool := false
  uploadedFile : JsVal := .null
  isUploading : Bool := false
  isSessionsLoading : Bool := true
  uploadSuccess : Bool := false
  showUserMenu : Bool := false
  isSessionLoading : Bool := false
  showPdfUpload : Bool := true
  deriving DecidableEq, Repr

/-- The code points `String.prototype.trim` strips: WhiteSpace and LineTerminator of
ECMAScript. -/
def isJsWhitespace (c : Char) : Bool :=
  c.toNat = 0x9 || c.toNat = 0xA || c.toNat = 0xB || c.toNat = 0xC || c.toNat = 0xD ||
  c.toNat = 0x20 || c.toNat = 0xA0 || c.toNat = 0x1680 ||
  (decide (0x2000 ≤ c.toNat) && decide (c.toNat ≤ 0x200A)) ||
  c.toNat = 0x2028 || c.toNat = 0x2029 || c.toNat = 0x202F || c.toNat = 0x205F ||
  c.toNat = 0x3000 || c.toNat = 0xFEFF

/-- The method `String.prototype.trim`. -/
def trim (s : String) : String :=
  String.mk ((s.toList.dropWhile isJsWhitespace).reverse.dropWhile isJsWhitespace).reverse

/-- Reading `currentSession?._id`. -/
def sessionIdOf : Option JsObj → JsVal
  | some currentSession => JsObj.get currentSession "_id"
  | none => .undefined

/-- The object `userMessage` of `sendMessage` (ChatPage.jsx, lines 194-198). -/
def userMessage (messageText : String) (now : Clock) : JsObj :=
  [("role", .str "user"), ("content", .str messageText), ("timestamp", .str now.iso)]

/-- The objects `assistantMessage` and `errorMessage` of `sendMessage` (ChatPage.jsx, lines
210-214 and 225-229). -/
def assistantMessage (content : JsVal) (now : Clock) : JsObj :=
  [("role", .str "assistant"), ("content", content), ("timestamp", .str now.iso)]

/-- The fixed text of `errorMessage` (ChatPage.jsx, line 227). -/
def fallbackText : String := "معذرت، مجھے ایک خرابی کا سامنا کرنا پڑا۔ براہ کرم دوبارہ کوشش کریں۔"

/-- The request of `authAxios.post("/api/chat", ...)` (ChatPage.jsx, lines 205-208). -/
def chatConfig (messageText : String) (currentSession : Option JsObj) : Config :=
  { url := "/api/chat", method := "post",
    data := some [("query", .str messageText), ("session_id", sessionIdOf currentSession)] }

/-- The request of `authAxios.get("/api/sessions")`. -/
def fetchSessionsConfig : Config := { url := "/api/sessions", method := "get" }

/-- The function `fetchSessions` up to its `await` (ChatPage.jsx, lines 89-92). -/
def fetchSessionsStart (w : World) (c : ChatState) : World × ChatState × Task :=
  ((authAxios w fetchSessionsConfig).1, { c with isSessionsLoading := true },
    (authAxios w fetchSessionsConfig).2)

/-- The function `fetchSessions` from its `await` on (ChatPage.jsx, lines 93-98).  The state
holds a list; a body that is not an array is read as the empty list. -/
def fetchSessionsSettled (c : ChatState) : Outcome → ChatState
  | .fulfilled response _ =>
    { c with sessions := response.rows.getD [], isSessionsLoading := false }
  | .rejected _ => { c with isSessionsLoading := false }

/-- The function `sendMessage` past its guard and up to its `await` (ChatPage.jsx, lines
194-202): the user message is appended, the input cleared, the loading flag set. -/
def sendMessageStart (c : ChatState) (messageText : String) (now : Clock) : ChatState :=
  { c with messages := c.messages ++ [userMessage messageText now], inputMessage := "",
           isLoading := true }

/-- The `catch` and `finally` blocks of `sendMessage` (ChatPage.jsx, lines 223-233). -/
def sendMessageCatch (c : ChatState) (now : Clock) : ChatState :=
  { c with messages := c.messages ++ [assistantMessage (.str fallbackText) now],
           isLoading := false }

/-- The session object `sendMessage` installs for a session the backend created (ChatPage.jsx,
line 220). -/
def createdSession (sessionId : JsVal) (uploadedFile : JsVal) : JsObj :=
  [("_id", sessionId),
   ("name", .str (if uploadedFile.truthy then "Untitled Chat" else "Unnamed Chat"))]

/-- The function `sendMessage` from its `await` on (ChatPage.jsx, lines 210-233).
`currentSession` and `uploadedFile` are the values the closure captured when `sendMessage` was
called; `c` is the state the functional updates apply to.  The third component is the call of
`fetchSessions()` it leaves in flight, when it makes one. -/
def sendMessageSettled (w : World) (c : ChatState) (currentSession : Option JsObj)
    (uploadedFile : JsVal) (now : Clock) : Outcome → World × ChatState × Option Task
  | .rejected _ => (w, sendMessageCatch c now, none)
  | .fulfilled response _ =>
    match response.data with
    | none => (w, sendMessageCatch c now, none)
    | some data =>
      let c1 := { c with messages := c.messages ++ [assistantMessage (JsObj.get data "answer") now] }
      if (JsObj.get data "session_id").truthy && !(sessionIdOf currentSession).truthy then
        let c2 := { c1 with
          currentSession := some (createdSession (JsObj.get data "session_id") uploadedFile) }
        ((fetchSessionsStart w c2).1, { (fetchSessionsStart w c2).2.1 with isLoading := false },
          some (fetchSessionsStart w c2).2.2)
      else (w, { c1 with isLoading := false }, none)

/-- The function `sendMessage` (ChatPage.jsx, lines 191-234) with nothing else interleaved,
the backend answering the chat request with `replies`; `sentAt` and `repliedAt` are the clock
readings of the turn of the call and of the turn in which the request settles. -/
def sendMessage (w : World) (c : ChatState) (messageText : String) (sentAt repliedAt : Clock)
    (replies : List Reply) : World × ChatState × Option Task × Completion :=
  if trim messageText = "" then (w, c, none, .returned)
  else
    let r := authAxiosRun w (chatConfig messageText c.currentSession) replies
    match r.2.outcome? with
    | none => (r.1, sendMessageStart c messageText sentAt, none, .pending)
    | some outcome =>
      ((sendMessageSettled r.1 (sendMessageStart c messageText sentAt) c.currentSession
          c.uploadedFile repliedAt outcome).1,
        (sendMessageSettled r.1 (sendMessageStart c messageText sentAt) c.currentSession
          c.uploadedFile repliedAt outcome).2.1,
        (sendMessageSettled r.1 (sendMessageStart c messageText sentAt) c.currentSession
          c.uploadedFile repliedAt outcome).2.2, .returned)

/-- The function `handleNewChat` (ChatPage.jsx, lines 241-246). -/
def handleNewChat (c : ChatState) : ChatState :=
  { c with currentSession := some [("_id", .null), ("name", .str "New Chat")], messages := [],
           uploadedFile := .null, showPdfUpload := true }

/-- The request for the details of a session (ChatPage.jsx, line 140). -/
def sessionConfig (sessionId : JsVal) : Config :=
  { url := "/api/sessions/" ++ sessionId.toJsString, method := "get" }

/-- The request for the messages of a session (ChatPage.jsx, line 152). -/
def messagesConfig (sessionId : JsVal) : Config :=
  { url := "/api/sessions/" ++ sessionId.toJsString ++ "/messages", method := "get" }

/-- The session object `loadSession` installs when the details could not be fetched
(ChatPage.jsx, lines 160-164). -/
def placeholderSession (sessionId : JsVal) (now : Clock) : JsObj :=
  [("_id", sessionId), ("name", .str ("Chat " ++ now.locale)), ("created_at", .str now.iso)]

/-- The session object `loadSession` installs from the fetched details (ChatPage.jsx, lines
142-146). -/
def loadedSession (data : JsObj) : JsObj :=
  [("_id", JsObj.get data "session_id"), ("name", JsObj.get data "title"),
   ("created_at", JsObj.get data "created_at")]

/-- The outer `catch` and `finally` blocks of `loadSession` (ChatPage.jsx, lines 157-169). -/
def loadSessionCatch (c : ChatState) (sessionId : JsVal) (now : Clock) : ChatState :=
  { c with currentSession := some (placeholderSession sessionId now), messages := [],
           uploadedFile := .null, isSessionLoading := false }

/-- The function `loadSession` from its first `await` to its second (ChatPage.jsx, lines
140-152), or to its end when the first request failed.  The third component is the request
for the messages, when it is made. -/
def loadSessionSettled (w : World) (c : ChatState) (sessionId : JsVal) (now : Clock) :
    Outcome → World × ChatState × Option Task
  | .rejected _ => (w, loadSessionCatch c sessionId now, none)
  | .fulfilled sessionResponse _ =>
    match sessionResponse.data with
    | none => (w, loadSessionCatch c sessionId now, none)
    | some data =>
      ((authAxios w (messagesConfig sessionId)).1,
        { c with currentSession := some (loadedSession data),
                 uploadedFile := JsObj.get data "collection_name" },
        some (authAxios w (messagesConfig sessionId)).2)

/-- The function `loadSession` from its second `await` on (ChatPage.jsx, lines 153-156 and
167-169).  The state holds a list; `messagesResponse.data || []` is the body when it is an
array and the empty list when it is `null`. -/
def loadSessionMessagesSettled (c : ChatState) : Outcome → ChatState
  | .fulfilled messagesResponse _ =>
    { c with messages := messagesResponse.rows.getD [], isSessionLoading := false }
  | .rejected _ => { c with messages := [], isSessionLoading := false }

/-- The request of `authAxios.delete` in `deleteSession` (ChatPage.jsx, line 174). -/
def deleteConfig (sessionId : JsVal) : Config :=
  { url := "/api/sessions/" ++ sessionId.toJsString, method := "delete" }

/-- The function `deleteSession` from its `await` on (ChatPage.jsx, lines 175-188): the `try`
and the `catch` arm do the same.  `sessions` and `currentSession` are the values the closure
captured when `deleteSession` was called; `!==` and `===` compare primitives by value. -/
def deleteSessionSettled (c : ChatState) (sessions : List JsObj) (currentSession : Option JsObj)
    (sessionId : JsVal) : ChatState :=
  if currentSession.isSome && decide (sessionIdOf currentSession = sessionId) then
    { c with sessions := sessions.filter (fun s => decide (JsObj.get s "session_id" ≠ sessionId)),
             currentSession := none, messages := [] }
  else
    { c with sessions := sessions.filter (fun s => decide (JsObj.get s "session_id" ≠ sessionId)) }

/-- The function `deleteSession` (ChatPage.jsx, lines 172-189) with nothing else interleaved,
the backend answering the DELETE request with `replies`. -/
def deleteSession (w : World) (c : ChatState) (sessionId : JsVal) (replies : List Reply) :
    World × ChatState × Completion :=
  match (authAxiosRun w (deleteConfig sessionId) replies).2.outcome? with
  | none => ((authAxiosRun w (deleteConfig sessionId) replies).1, c, .pending)
  | some _ =>
    ((authAxiosRun w (deleteConfig sessionId) replies).1,
      deleteSessionSettled c c.sessions c.currentSession sessionId, .returned)

/-- The function `loadSession` (ChatPage.jsx, lines 134-170) with nothing else interleaved,
the backend answering the request for the details with `detailReplies` and the request for
the messages with `messagesReplies`; `now` is the clock reading of the turn in which the
first request settles. -/
def loadSession (w : World) (c : ChatState) (sessionId : JsVal) (now : Clock)
    (detailReplies messagesReplies : List Reply) : World × ChatState × Completion :=
  match (authAxiosRun w (sessionConfig sessionId) detailReplies).2.outcome? with
  | none =>
    ((authAxiosRun w (sessionConfig sessionId) detailReplies).1,
      { c with isSessionLoading := true }, .pending)
  | some outcome =>
    match (loadSessionSettled (authAxiosRun w (sessionConfig sessionId) detailReplies).1
        { c with isSessionLoading := true } sessionId now outcome) with
    | (w2, c2, none) => (w2, c2, .returned)
    | (w2, c2, some task) =>
      match (Task.run w2 task messagesReplies).2.outcome? with
      | none => ((Task.run w2 task messagesReplies).1, c2, .pending)
      | some outcome2 =>
        ((Task.run w2 task messagesReplies).1, loadSessionMessagesSettled c2 outcome2, .returned)

/-- The request of `authAxios.post("/api/pdf", formData, ...)` (ChatPage.jsx, lines 111-115);
the file in the form data is a value of its own, rendered by its name. -/
def uploadConfig (file : String) : Config :=
  { url := "/api/pdf", method := "post", headers := [("Content-Type", "multipart/form-data")],
    data := some [("file", .ref file)] }

/-- The function `handleFileUpload` from its `await` on (ChatPage.jsx, lines 117-131).  The
timer it starts on success is `uploadSuccessExpired`. -/
def handleFileUploadSettled (w : World) (c : ChatState) : Outcome → World × ChatState
  | .rejected _ =>
    ({ w with alerts := w.alerts ++ ["Upload failed. Please try again."] },
      { c with isUploading := false })
  | .fulfilled response _ =>
    match response.data with
    | none =>
      ({ w with alerts := w.alerts ++ ["Upload failed. Please try again."] },
        { c with isUploading := false })
    | some data =>
      (w, { c with uploadedFile := JsObj.get data "collection_name", uploadSuccess := true,
                   showPdfUpload := false, isUploading := false })

/-- The callback of the timer of `handleFileUpload` (ChatPage.jsx, lines 122-124). -/
def uploadSuccessExpired (c : ChatState) : ChatState := { c with uploadSuccess := false }

/-- What a handler of `ChatPage` suspended at an `await` goes on to do, with the values its
closure captured when it was called. -/
inductive Pending where
  | sendMessage (currentSession : Option JsObj) (uploadedFile : JsVal)
  | fetchSessions
  | loadSession (sessionId : JsVal)
  | loadSessionMessages (sessionId : JsVal)
  | deleteSession (sessionId : JsVal) (sessions : List JsObj) (currentSession : Option JsObj)
  | handleFileUpload
  deriving DecidableEq, Repr

/-- A handler suspended at an `await`, and the call of `authAxios` it waits for.  Once that
call is settled the handler has run on and the entry is spent. -/
structure Op where
  pending : Pending
  task : Task
  deriving DecidableEq, Repr

/-- The chat page between two turns of the event loop: the browser state, the React state,
and the handlers in flight, in the order they were started. -/
structure Page where
  world : World
  chat : ChatState
  ops : List Op := []
  deriving DecidableEq, Repr

/-- A call of `sendMessage(messageText)` as one turn. -/
def Page.sendMessage (p : Page) (messageText : String) (now : Clock) : Page :=
  if trim messageText = "" then p
  else
    { world := (authAxios p.world (chatConfig messageText p.chat.currentSession)).1,
      chat := sendMessageStart p.chat messageText now,
      ops := p.ops ++ [{ pending := .sendMessage p.chat.currentSession p.chat.uploadedFile,
                         task := (authAxios p.world
                           (chatConfig messageText p.chat.currentSession)).2 }] }

/-- A click on "New Chat" as one turn. -/
def Page.handleNewChat (p : Page) : Page := { p with chat := UrduWhiz.handleNewChat p.chat }

/-- A call of `loadSession(sessionId)` as one turn (ChatPage.jsx, lines 134-140). -/
def Page.loadSession (p : Page) (sessionId : JsVal) : Page :=
  { world := (authAxios p.world (sessionConfig sessionId)).1,
    chat := { p.chat with isSessionLoading := true },
    ops := p.ops ++ [{ pending := .loadSession sessionId,
                       task := (authAxios p.world (sessionConfig sessionId)).2 }] }

/-- A call of `fetchSessions()` as one turn. -/
def Page.fetchSessions (p : Page) : Page :=
  { world := (fetchSessionsStart p.world p.chat).1, chat := (fetchSessionsStart p.world p.chat).2.1,
    ops := p.ops ++ [{ pending := .fetchSessions, task := (fetchSessionsStart p.world p.chat).2.2 }] }

/-- A suspended handler runs on with the outcome of the call it waited for: the new browser
and React state, and the handlers this leaves in flight. -/
def Pending.resume (w : World) (c : ChatState) (now : Clock) (outcome : Outcome) :
    Pending → World × ChatState × List Op
  | .sendMessage currentSession uploadedFile =>
    ((sendMessageSettled w c currentSession uploadedFile now outcome).1,
      (sendMessageSettled w c currentSession uploadedFile now outcome).2.1,
      match (sendMessageSettled w c currentSession uploadedFile now outcome).2.2 with
      | some task => [{ pending := .fetchSessions, task := task }]
      | none => [])
  | .fetchSessions => (w, fetchSessionsSettled c outcome, [])
  | .loadSession sessionId =>
    ((loadSessionSettled w c sessionId now outcome).1,
      (loadSessionSettled w c sessionId now outcome).2.1,
      match (loadSessionSettled w c sessionId now outcome).2.2 with
      | some task => [{ pending := .loadSessionMessages sessionId, task := task }]
      | none => [])
  | .loadSessionMessages _ => (w, loadSessionMessagesSettled c outcome, [])
  | .deleteSession sessionId sessions currentSession =>
    (w, deleteSessionSettled c sessions currentSession sessionId, [])
  | .handleFileUpload =>
    ((handleFileUploadSettled w c outcome).1, (handleFileUploadSettled w c outcome).2, [])

/-- One turn of the event loop: the reply to the network call the `i`-th handler in flight
waits for arrives.  The call of `authAxios` advances; when that settles it, the handler runs
on, on the state the page has by then. -/
def Page.deliverTo (p : Page) (i : Nat) (reply : Reply) (now : Clock) : Page :=
  match p.ops.get? i with
  | none => p
  | some op =>
    match op.task with
    | .settled _ => p
    | task =>
      match (Task.deliver p.world task reply).2 with
      | .settled outcome =>
        { world := (op.pending.resume (Task.deliver p.world task reply).1 p.chat now outcome).1,
          chat := (op.pending.resume (Task.deliver p.world task reply).1 p.chat now outcome).2.1,
          ops := p.ops.set i { op with task := .settled outcome } ++
            (op.pending.resume (Task.deliver p.world task reply).1 p.chat now outcome).2.2 }
      | next =>
        { p with world := (Task.deliver p.world task reply).1,
                 ops := p.ops.set i { op with task := next } }

/-- A call of `deleteSession(sessionId)` as one turn (ChatPage.jsx, lines 172-174). -/
def Page.deleteSession (p : Page) (sessionId : JsVal) : Page :=
  { world := (authAxios p.world (deleteConfig sessionId)).1,
    chat := p.chat,
    ops := p.ops ++ [{ pending := .deleteSession sessionId p.chat.sessions p.chat.currentSession,
                       task := (authAxios p.world (deleteConfig sessionId)).2 }] }

/-- A call of `handleFileUpload` as one turn (ChatPage.jsx, lines 101-115); `file` is
`event.target.files[0]`, `none` when no file was chosen. -/
def Page.handleFileUpload (p : Page) (file : Option String) : Page :=
  match file with
  | none => p
  | some name =>
    { world := (authAxios p.world (uploadConfig name)).1,
      chat := { p.chat with isUploading := true, uploadSuccess := false },
      ops := p.ops ++ [{ pending := .handleFileUpload,
                         task := (authAxios p.world (uploadConfig name)).2 }] }

/-- The `disabled` attribute of the text input (ChatPage.jsx, line 515). -/
def inputDisabled (c : ChatState) : Bool := c.isLoading || !c.uploadedFile.truthy

/-- The `disabled` attribute of the Send button (ChatPage.jsx, line 521). -/
def sendDisabled (c : ChatState) : Bool :=
  decide (trim c.inputMessage = "") || c.isLoading || !c.uploadedFile.truthy

/-- What the messages area shows (ChatPage.jsx, lines 382-503). -/
inductive Pane where
  | sessionLoading
  | uploadCard
  | suggestions
  | messageList
  deriving DecidableEq, Repr

/-- The choice of the messages area between its panes (ChatPage.jsx, lines 382, 389, 392). -/
def pane (c : ChatState) : Pane :=
  if c.isSessionLoading then .sessionLoading
  else if decide (c.messages.length = 0) && !c.isLoading then
    if c.showPdfUpload then .uploadCard else .suggestions
  else .messageList

/-- The array `suggestionQuestions` (ChatPage.jsx, lines 248-252). -/
def suggestionQuestions : List String := ["اس کہانی کا خلاصہ کیا ہے؟", "اس کہانی میں اہم کردار کون کون سے ہیں؟", "اس کہانی سے ہمیں کیا سبق حاصل ہوتا ہے؟"]

/-- The user types into the text input (its `onChange`), which a disabled input does not
allow. -/
def Page.typeInput (p : Page) (text : String) : Page :=
  if inputDisabled p.chat then p else { p with chat := { p.chat with inputMessage := text } }

/-- The user submits the input form, by the Send button or by the Enter key in the text
input, unless both are disabled: `handleSubmit` (ChatPage.jsx, lines 236-239). -/
def Page.submitForm (p : Page) (now : Clock) : Page :=
  if sendDisabled p.chat && inputDisabled p.chat then p
  else p.sendMessage p.chat.inputMessage now

/-- The user clicks the `k`-th suggestion card, which is there only in the suggestions pane
(ChatPage.jsx, lines 442-447). -/
def Page.clickSuggestion (p : Page) (k : Nat) (now : Clock) : Page :=
  if pane p.chat = .suggestions then
    match suggestionQuestions.get? k with
    | some question => p.sendMessage question now
    | none => p
  else p

/-- The user picks a file in the upload card, which is there only in the upload pane and
whose file input is disabled while an upload is in flight (ChatPage.jsx, lines 409-415). -/
def Page.chooseFile (p : Page) (file : Option String) : Page :=
  if pane p.chat = .uploadCard && !p.chat.isUploading then p.handleFileUpload file else p

/-- The user clicks the `k`-th session of the list, which is shown once the list is loaded
(ChatPage.jsx, lines 284-299). -/
def Page.clickSession (p : Page) (k : Nat) : Page :=
  if p.chat.isSessionsLoading then p
  else
    match p.chat.sessions.get? k with
    | some session => p.loadSession (JsObj.get session "session_id")
    | none => p

/-- The number of chat requests in a trace. -/
def chatCalls (trace : List Call) : Nat :=
  (trace.filter (fun call => decide (call.config.url = "/api/chat"))).length

/-! ## pages/auth/GoogleRedirectHandler.jsx -/

/-- The effect of `GoogleRedirectHandler` (GoogleRedirectHandler.jsx, lines 8-21): the new
browser state and the route it navigates to.  `params` is the query string of the callback
URL as `useSearchParams` parses it. -/
def GoogleRedirectHandler (w : World) (params : List (String × String)) : World × String :=
  if tokenTruthy (params.lookup "access_token") then
    ({ w with accessToken := params.lookup "access_token", justLoggedIn := some "true" },
      "/chat")
  else (w, "/login")

/-! ## pages/auth/SignUp.jsx and pages/auth/ResetPassword.jsx: `validatePassword` -/

/-- The class `[A-Z]`. -/
def isUpper (c : Char) : Bool := decide ('A' ≤ c) && decide (c ≤ 'Z')

/-- The class `[a-z]`. -/
def isLower (c : Char) : Bool := decide ('a' ≤ c) && decide (c ≤ 'z')

/-- The class `\d`, which without the `u` flag is `[0-9]`. -/
def isDigit (c : Char) : Bool := decide ('0' ≤ c) && decide (c ≤ '9')

/-- The class `[@$!%*?&]`. -/
def isSpecial (c : Char) : Bool :=
  c = '@' || c = '$' || c = '!' || c = '%' || c = '*' || c = '?' || c = '&'

/-- The class `[A-Za-z\d@$!%*?&]`. -/
def inAlphabet (c : Char) : Bool := isUpper c || isLower c || isDigit c || isSpecial c

/-- The line terminators, which `.` does not match. -/
def isLineTerminator (c : Char) : Bool :=
  c.toNat = 0xA || c.toNat = 0xD || c.toNat = 0x2028 || c.toNat = 0x2029

/-- The lookahead `(?=.*X)` tried on the rest of the input: a character of the class `X`
follows, with no line terminator before it. -/
def lookahead (cls : Char → Bool) : List Char → Bool
  | [] => false
  | c :: rest => cls c || (!isLineTerminator c && lookahead cls rest)

/-- The function `validatePassword` (SignUp.jsx, lines 14-17, and the same in
ResetPassword.jsx, lines 13-16): the pattern
`^(?=.*[A-Z])(?=.*\d)(?=.*[@$!%*?&])[A-Za-z\d@$!%*?&]{8,}$` tested on the password. -/
def validatePassword (password : String) : Bool :=
  lookahead isUpper password.toList && lookahead isDigit password.toList &&
  lookahead isSpecial password.toList &&
  (password.toList.all inAlphabet && decide (8 ≤ password.toList.length))

/-- The rule in the words of the error message of the forms: at least 8 characters, an
uppercase letter, a number, a special character (one that is neither a letter nor a
digit). -/
def meetsStatedRule (password : String) : Bool :=
  decide (8 ≤ password.length) && password.toList.any isUpper && password.toList.any isDigit &&
  password.toList.any (fun c => !(isUpper c || isLower c || isDigit c))

/-! ## pages/auth/ForgotPassword.jsx and pages/auth/ResetPassword.jsx -/

/-- The expression `v || d` with a string default. -/
def orDefault (v : JsVal) (d : String) : JsVal := if v.truthy then v else .str d

/-- The React state of `ForgotPassword` (ForgotPassword.jsx, lines 6-8); `status` is `null`
or an object with `type` and `message`. -/
structure ForgotPasswordForm where
  email : String := ""
  status : Option JsObj := none
  loading : Bool := false
  deriving DecidableEq, Repr

/-- The request of `AxiosInstance.post("/auth/forgot-password", ...)`, where `AxiosInstance` is
the default export of api/authAxios.js (ForgotPassword.jsx, lines 2 and 16). -/
def forgotPasswordConfig (email : String) : Config :=
  { url := "/auth/forgot-password", method := "post", data := some [("email", .str email)] }

/-- The `catch` and `finally` blocks of `handleForgotPassword` (ForgotPassword.jsx, lines
23-31). -/
def handleForgotPasswordCatch (f : ForgotPasswordForm) (error : Failure) : ForgotPasswordForm :=
  { f with loading := false,
           status := some [("type", .str "error"),
             ("message", orDefault (detailOf error) "Failed to send reset email.")] }

/-- The function `handleForgotPassword` (ForgotPassword.jsx, lines 10-32), the backend
answering with `replies`. -/
def handleForgotPassword (w : World) (f : ForgotPasswordForm) (replies : List Reply) :
    World × ForgotPasswordForm × Completion :=
  match (authAxiosRun w (forgotPasswordConfig f.email) replies).2.outcome? with
  | none =>
    ((authAxiosRun w (forgotPasswordConfig f.email) replies).1,
      { f with status := none, loading := true }, .pending)
  | some (.rejected error) =>
    ((authAxiosRun w (forgotPasswordConfig f.email) replies).1,
      handleForgotPasswordCatch { f with status := none, loading := true } error, .returned)
  | some (.fulfilled response _) =>
    match response.data with
    | none =>
      ((authAxiosRun w (forgotPasswordConfig f.email) replies).1,
        handleForgotPasswordCatch { f with status := none, loading := true } .typeError,
        .returned)
    | some data =>
      ((authAxiosRun w (forgotPasswordConfig f.email) replies).1,
        { email := "",
          status := some [("type", .str "success"),
            ("message", orDefault (JsObj.get data "message")
              "Reset email sent! Please check your inbox.")],
          loading := false }, .returned)

/-- The React state of `ResetPassword` (ResetPassword.jsx, lines 6-9). -/
structure ResetPasswordForm where
  newPassword : String := ""
  confirmPassword : String := ""
  errors : JsObj := []
  status : JsObj := [("loading", .bool false), ("success", .null), ("message", .str "")]
  deriving DecidableEq, Repr

/-- The request of `AxiosInstance.post("/auth/reset-password", ...)`, where `AxiosInstance` is
the default export of api/authAxios.js (ResetPassword.jsx, lines 2 and 45-48). -/
def resetPasswordConfig (token : String) (newPassword : String) : Config :=
  { url := "/auth/reset-password", method := "post",
    data := some [("token", .str token), ("new_password", .str newPassword)] }

/-- The object `newErrors` of `handleReset` (ResetPassword.jsx, lines 21-29). -/
def resetErrors (f : ResetPasswordForm) : JsObj :=
  (if validatePassword f.newPassword then []
    else [("newPassword", .str ("Password must be at least 8 characters, include one " ++
      "uppercase letter, one number, and one special character."))]) ++
  (if f.newPassword ≠ f.confirmPassword then
    [("confirmPassword", .str "Passwords do not match.")] else [])

/-- The `catch` block of `handleReset` (ResetPassword.jsx, lines 57-63). -/
def handleResetCatch (f : ResetPasswordForm) (error : Failure) : ResetPasswordForm :=
  { f with status := [("loading", .bool false), ("success", .bool false),
      ("message", orDefault (detailOf error) "Reset failed.")] }

/-- The function `handleReset` (ResetPassword.jsx, lines 18-64), the backend answering with
`replies`; `token` is the `token` parameter of the page URL. -/
def handleReset (w : World) (f : ResetPasswordForm) (token : Option String)
    (replies : List Reply) : World × ResetPasswordForm × Completion :=
  match token with
  | none =>
    (w, { f with status := [("success", .bool false),
      ("message", .str "Missing or invalid reset token.")] }, .returned)
  | some t =>
    if t = "" then
      (w, { f with status := [("success", .bool false),
        ("message", .str "Missing or invalid reset token.")] }, .returned)
    else if resetErrors f ≠ [] then (w, { f with errors := resetErrors f }, .returned)
    else
      match (authAxiosRun w (resetPasswordConfig t f.newPassword) replies).2.outcome? with
      | none =>
        ((authAxiosRun w (resetPasswordConfig t f.newPassword) replies).1,
          { f with status := [("loading", .bool true), ("success", .null), ("message", .str "")],
                   errors := [] }, .pending)
      | some (.rejected error) =>
        ((authAxiosRun w (resetPasswordConfig t f.newPassword) replies).1,
          handleResetCatch { f with errors := [] } error, .returned)
      | some (.fulfilled response _) =>
        match response.data with
        | none =>
          ((authAxiosRun w (resetPasswordConfig t f.newPassword) replies).1,
            handleResetCatch { f with errors := [] } .typeError, .returned)
        | some data =>
          ((authAxiosRun w (resetPasswordConfig t f.newPassword) replies).1,
            { newPassword := "", confirmPassword := "", errors := [],
              status := [("loading", .bool false), ("success", .bool true),
                ("message", orDefault (JsObj.get data "message")
                  "Password reset successfully!")] }, .returned)

/-- The request the response interceptor hands back to `authAxios` after a refresh that
yielded the body `data` (authAxios.js, lines 32-37): `originalRequest`, which carries the
`_retry` mark by then, with the new bearer header. -/
def resent (originalRequest : Config) (data : JsObj) : Config :=
  { originalRequest with
    headers := Headers.set originalRequest.headers "Authorization"
      ("Bearer " ++ (JsObj.get data "access_token").toJsString) }

/-- What the `catch (refreshError)` block catches for a given reply to the refresh call:
the rejection of `axios.post`, or the TypeError of reading `access_token` from an empty
body; `none` when the `try` block runs through. -/
def refreshError? (reply : Reply) : Option Failure :=
  match settle refreshConfig reply with
  | .rejected refreshError => some refreshError
  | .fulfilled refreshResponse _ =>
    match refreshResponse.data with
    | none => some .typeError
    | some _ => none

/-- The request as it leaves on the first send. -/
def firstCall (w : World) (config : Config) : Call :=
  { client := .authAxios, config := requestInterceptor w config }

/-- The request as it leaves on the resend after a refresh that yielded the body `data`. -/
def resendConfig (w : World) (config : Config) (data : JsObj) : Config :=
  requestInterceptor { w with accessToken := some (JsObj.get data "access_token").toJsString }
    (resent { requestInterceptor w config with _retry := true } data)

/-- The browser state right after a refresh that yielded the body `data`, resend included. -/
def afterRefresh (w : World) (config : Config) (data : JsObj) : World :=
  { w with
    accessToken := some (JsObj.get data "access_token").toJsString
    trace := w.trace ++ [firstCall w config, refreshCall,
      { client := .authAxios, config := resendConfig w config data }] }

/-- The browser state after the URL step of boot (AuthContext.jsx, lines 45-54): a truthy
`access_token` parameter is stored as the credential. -/
def storeUrlToken (w : World) (loc : Location) : World :=
  if tokenTruthy (loc.search.lookup "access_token") then
    { w with accessToken := loc.search.lookup "access_token" }
  else w

/-- The location after the URL step of boot: what `window.history.replaceState` installs when
a truthy `access_token` parameter was there, the location as it was otherwise. -/
def stripUrlToken (loc : Location) : Location :=
  if tokenTruthy (loc.search.lookup "access_token") then
    { loc with search := loc.search.filter (fun p => p.1 ≠ "access_token"), hash := "" }
  else loc

/-! ## Sample inputs -/

/-- A request for the session list. -/
def sessionsRequest : Config := { url := "/api/sessions", method := "get" }

/-- A request for one session. -/
def sessionRequest : Config := { url := "/api/sessions/s1", method := "get" }

/-- A browser holding the credential `old`. -/
def signedIn : World := { accessToken := some "old" }

/-- A browser holding no credential. -/
def signedOut : World := {}

/-- A 401 reply. -/
def unauthorized : Response := { status := 401, data := some [("detail", .str "Token expired")] }

/-- A reply of the refresh endpoint carrying the credential `fresh`. -/
def refreshedReply : Response := { status := 200, data := some [("access_token", .str "fresh")] }

/-- A reply of the login endpoint carrying the credential `issued`. -/
def issuedReply : Response := { status := 200, data := some [("access_token", .str "issued")] }

/-- An identity that has not verified its email. -/
def unverifiedUser : JsObj :=
  [("username", .str "arfa"), ("email", .str "arfa@example.com"), ("is_verified", .bool false)]

/-- The reply of `/auth/me` for `unverifiedUser`. -/
def unverifiedReply : Response := { status := 200, data := some unverifiedUser }

/-- A plain success reply without a body. -/
def okReply : Response := { status := 200, data := none }

/-- The clock when a message is sent. -/
def sentClock : Clock := { iso := "2025-01-01T10:00:00.000Z", locale := "1/1/2025, 10:00:00 AM" }

/-- The clock when the reply is there. -/
def repliedClock : Clock :=
  { iso := "2025-01-01T10:00:05.000Z", locale := "1/1/2025, 10:00:05 AM" }

/-- A chat page with a document bound and no active session. -/
def readyChat : ChatState :=
  { uploadedFile := .str "story", showPdfUpload := false, isSessionsLoading := false }

/-- A chat page in the session `s1`, one exchange in its log. -/
def openChat : ChatState :=
  { readyChat with
    currentSession := some [("_id", .str "s1"), ("name", .str "Untitled Chat")],
    messages := [userMessage "پہلا سوال" sentClock,
      assistantMessage (.str "پہلا جواب") sentClock] }

/-- The reply of the chat endpoint of the round trip of the specification. -/
def answerReply : Response :=
  { status := 200, data := some [("answer", .str "جواب"), ("session_id", .str "abc")] }

/-- The session list with the sessions `s1` and `s2`. -/
def sessionList : List JsObj :=
  [[("session_id", .str "s1"), ("title", .str "First")],
   [("session_id", .str "s2"), ("title", .str "Second")]]

/-- The reply of the sessions endpoint with `sessionList`. -/
def sessionListReply : Response := { status := 200, data := some [], rows := some sessionList }

/-- The reply of the messages endpoint for a session without messages. -/
def noMessagesReply : Response := { status := 200, data := some [], rows := some [] }

/-- A chat page in the session `s1` with `sessionList` shown. -/
def listedChat : ChatState := { openChat with sessions := sessionList }

/-- The chat page once mounted: the effect of lines 85-87 has called `fetchSessions`. -/
def mountedPage : Page := ({ world := signedIn, chat := {} } : Page).fetchSessions

/-- The reply of the session endpoint for the session `s2`. -/
def sessionReply : Response :=
  { status := 200,
    data := some [("session_id", .str "s2"), ("title", .str "Second"),
      ("created_at", .str "2024-12-31T09:00:00.000Z"), ("collection_name", .str "other")] }

/-- The mounted page after the session list arrived, the session `s2`, which has a document
bound and no messages, was clicked and loaded, a file was picked in the upload card, and a
question was typed while the upload is in flight. -/
def uploadingPage : Page :=
  ((((((mountedPage.deliverTo 0 (some sessionListReply) sentClock).clickSession 1).deliverTo 1
    (some sessionReply) sentClock).deliverTo 2 (some noMessagesReply) sentClock).chooseFile
    (some "story.pdf")).typeInput "سوال")

/-- The mounted page after the session list arrived, a document was uploaded, and the session
`s1` was clicked and loaded, whose details carry no `collection_name` and which has no
messages. -/
def unboundSessionPage : Page :=
  (((((mountedPage.deliverTo 0 (some sessionListReply) sentClock).chooseFile
    (some "story.pdf")).deliverTo 1
    (some { status := 200, data := some [("collection_name", .str "story")] })
    sentClock).clickSession 0).deliverTo 2
    (some { status := 200,
            data := some [("session_id", .str "s1"), ("title", .str "First"),
              ("created_at", .str "2024-12-30T09:00:00.000Z")] })
    sentClock).deliverTo 3 (some noMessagesReply) sentClock

/-- The mounted page after the session list arrived, a document was uploaded, and the session
`s1` was clicked, whose details the backend does not find. -/
def unboundPage : Page :=
  ((((mountedPage.deliverTo 0 (some sessionListReply) sentClock).chooseFile
    (some "story.pdf")).deliverTo 1
    (some { status := 200, data := some [("collection_name", .str "story")] })
    sentClock).clickSession 0).deliverTo 2 (some { status := 404, data := none }) sentClock

/-! ## Basic facts about the interceptors -/

theorem Headers.get_set (h : Headers) (k v : String) : (Headers.set h k v).get k = some v := by
  induction h with
  | nil => simp [Headers.set, Headers.get, List.lookup]
  | cons kv rest ih =>
    obtain ⟨k0, v0⟩ := kv
    by_cases hk : k0 = k
    · simp [Headers.set, Headers.get, List.lookup, hk]
    · have hk2 : (k == k0) = false := by
        simp only [beq_eq_false_iff_ne, ne_eq]
        exact fun e => hk e.symm
      simp only [Headers.set, hk, if_false, Headers.get, List.lookup, hk2]
      exact ih

theorem requestInterceptor_retry (w : World) (config : Config) :
    (requestInterceptor w config)._retry = config._retry := by
  unfold requestInterceptor
  cases w.accessToken with
  | none => rfl
  | some token => by_cases h : token = "" <;> simp [h]

/-- The request interceptor reads nothing but the stored credential. -/
theorem requestInterceptor_trace (w : World) (t : List Call) (config : Config) :
    requestInterceptor { w with trace := t } config = requestInterceptor w config := rfl

theorem Task.run_settled (w : World) (o : Outcome) (replies : List Reply) :
    Task.run w (.settled o) replies = (w, .settled o) := by
  cases replies <;> rfl

/-- A request that already carries `_retry` is settled by its reply, whatever it is, and the
browser state is left alone. -/
theorem deliver_retried (w : World) (config : Config) (reply : Reply)
    (h : config._retry = true) :
    Task.deliver w (.awaitingResponse config) reply = (w, .settled (settle config reply)) := by
  cases reply with
  | none => simp [Task.deliver, settle, onRejected]
  | some r =>
    by_cases hv : validateStatus r.status = true
    · simp [Task.deliver, settle, hv]
    · simp [Task.deliver, settle, hv, onRejected, h]

/-- What the first reply does to a fresh call. -/
theorem deliver_first (w : World) (config : Config) (reply : Reply) :
    Task.deliver w (.awaitingResponse config) reply =
      match reply with
      | some r =>
        if r.status = 401 ∧ config._retry = false then
          ({ w with trace := w.trace ++ [refreshCall] },
            .awaitingRefresh { config with _retry := true } (.axios config (some r)))
        else (w, .settled (settle config reply))
      | none => (w, .settled (settle config reply)) := by
  cases reply with
  | none => simp [Task.deliver, settle, onRejected]
  | some r =>
    by_cases hv : validateStatus r.status = true
    · have h401 : r.status ≠ 401 := by
        intro h
        rw [h] at hv
        simp [validateStatus] at hv
      simp [Task.deliver, settle, hv, h401]
    · by_cases h : r.status = 401 ∧ config._retry = false
      · simp only [Task.deliver, settle, hv]
        simp [onRejected, h]
      · simp only [Task.deliver, settle, hv, onRejected, h]
        simp
        intro h1
        cases hr : config._retry with
        | true => rfl
        | false => exact absurd ⟨h1, hr⟩ h

/-- What the reply to the refresh call does. -/
theorem deliver_refresh (w : World) (originalRequest : Config) (error : Failure) (reply : Reply) :
    Task.deliver w (.awaitingRefresh originalRequest error) reply =
      match reply with
      | some r =>
        if validateStatus r.status = true then
          match r.data with
          | some data =>
            authAxios { w with accessToken := some (JsObj.get data "access_token").toJsString }
              (resent originalRequest data)
          | none => onRefreshError w .typeError
        else onRefreshError w (.axios refreshConfig (some r))
      | none => onRefreshError w (.axios refreshConfig none) := by
  cases reply with
  | none => simp [Task.deliver, settle, onRefreshSettled]
  | some r =>
    by_cases hv : validateStatus r.status = true
    · cases hd : r.data <;> simp [Task.deliver, settle, hv, onRefreshSettled, hd, resent]
    · simp [Task.deliver, settle, hv, onRefreshSettled]


/-- A request that already carries `_retry` runs without touching the browser state, and its
first reply settles it. -/
theorem run_retried (w : World) (config : Config) (replies : List Reply)
    (h : config._retry = true) :
    Task.run w (.awaitingResponse config) replies =
      (w, match replies with
          | [] => .awaitingResponse config
          | reply :: _ => .settled (settle config reply)) := by
  cases replies with
  | nil => rfl
  | cons reply rest => simp [Task.run, deliver_retried w config reply h, Task.run_settled]

theorem resent_retry (w : World) (originalRequest : Config) (data : JsObj) :
    (requestInterceptor w (resent { originalRequest with _retry := true } data))._retry = true := by
  rw [requestInterceptor_retry]
  rfl

theorem authAxiosRun_trace (w : World) (config : Config) (replies : List Reply) :
    ∃ extra : List Call, (authAxiosRun w config replies).1.trace =
        w.trace ++ [{ client := Client.authAxios, config := requestInterceptor w config }] ++ extra ∧
      (extra = [] ∨ extra = [refreshCall] ∨
        ∃ c : Config, extra = [refreshCall, { client := Client.authAxios, config := c }]) := by
  unfold authAxiosRun
  cases replies with
  | nil => exact ⟨[], by simp [Task.run, authAxios], Or.inl rfl⟩
  | cons r1 rest =>
    simp only [authAxios, Task.run, deliver_first]
    cases r1 with
    | none => exact ⟨[], by simp [Task.run_settled], Or.inl rfl⟩
    | some r =>
      by_cases h : r.status = 401 ∧ (requestInterceptor w config)._retry = false
      · simp only [h, and_self, if_true]
        cases rest with
        | nil => exact ⟨[refreshCall], by simp [Task.run], Or.inr (Or.inl rfl)⟩
        | cons r2 rest2 =>
          simp only [Task.run, deliver_refresh]
          cases r2 with
          | none =>
            exact ⟨[refreshCall], by simp [onRefreshError, Task.run_settled], Or.inr (Or.inl rfl)⟩
          | some q =>
            by_cases hv : validateStatus q.status = true
            · cases hd : q.data with
              | none =>
                exact ⟨[refreshCall], by simp [hv, hd, onRefreshError, Task.run_settled],
                  Or.inr (Or.inl rfl)⟩
              | some data =>
                simp only [hv, hd, if_true, authAxios]
                rw [run_retried _ _ _ (resent_retry _ _ _)]
                exact ⟨_, List.append_assoc _ [refreshCall] [_], Or.inr (Or.inr ⟨_, rfl⟩)⟩
            · exact ⟨[refreshCall], by simp [hv, onRefreshError, Task.run_settled],
                Or.inr (Or.inl rfl)⟩
      · simp only [h, if_false]
        exact ⟨[], by simp [Task.run_settled], Or.inl rfl⟩


/-! ## The three ways a call of `authAxios` can go -/

/-- No refresh: the first reply is not a 401, or the request was already retried. -/
theorem authAxiosRun_direct (w : World) (config : Config) (reply : Reply) (rest : List Reply)
    (h : ∀ r, reply = some r → ¬(r.status = 401 ∧ config._retry = false)) :
    authAxiosRun w config (reply :: rest) =
      ({ w with trace := w.trace ++ [firstCall w config] },
        .settled (settle (requestInterceptor w config) reply)) := by
  unfold authAxiosRun
  simp only [authAxios, Task.run, deliver_first]
  cases reply with
  | none => simp [Task.run_settled, firstCall]
  | some r =>
    have h2 : ¬(r.status = 401 ∧ (requestInterceptor w config)._retry = false) := by
      rw [requestInterceptor_retry]
      exact h r rfl
    simp only [h2, if_false, Task.run_settled, firstCall]

/-- Refresh failed: the `catch` block ran. -/
theorem authAxiosRun_refreshFailed (w : World) (config : Config) (first : Response)
    (reply : Reply) (rest : List Reply) (refreshError : Failure)
    (hretry : config._retry = false) (h401 : first.status = 401)
    (hfail : refreshError? reply = some refreshError) :
    authAxiosRun w config (some first :: reply :: rest) =
      ({ w with accessToken := none, reloads := w.reloads + 1,
                trace := w.trace ++ [firstCall w config, refreshCall] },
        .settled (.rejected refreshError)) := by
  unfold authAxiosRun
  have h2 : (requestInterceptor w config)._retry = false := by
    rw [requestInterceptor_retry]
    exact hretry
  simp only [authAxios, Task.run, deliver_first, h401, h2, and_self, if_true]
  simp only [Task.deliver, onRefreshSettled]
  unfold refreshError? at hfail
  cases hs : settle refreshConfig reply with
  | rejected e =>
    rw [hs] at hfail
    simp only [Option.some.injEq] at hfail
    simp [onRefreshError, Task.run_settled, hfail, firstCall]
  | fulfilled r c =>
    rw [hs] at hfail
    cases hd : r.data with
    | none =>
      simp only [hd, Option.some.injEq] at hfail
      simp [hd, onRefreshError, Task.run_settled, hfail, firstCall]
    | some data => simp [hd] at hfail

/-- Refresh succeeded: the token is stored and the request is resent; the reply to the
resend, whatever it is, settles the call. -/
theorem authAxiosRun_refreshed (w : World) (config : Config) (first refreshed : Response)
    (data : JsObj) (rest : List Reply)
    (hretry : config._retry = false) (h401 : first.status = 401)
    (hok : validateStatus refreshed.status = true) (hdata : refreshed.data = some data) :
    authAxiosRun w config (some first :: some refreshed :: rest) =
      (afterRefresh w config data,
        match rest with
        | [] => .awaitingResponse (resendConfig w config data)
        | reply :: _ => .settled (settle (resendConfig w config data) reply)) := by
  unfold authAxiosRun
  have h2 : (requestInterceptor w config)._retry = false := by
    rw [requestInterceptor_retry]
    exact hretry
  simp only [authAxios, Task.run, deliver_first, h401, h2, and_self, if_true, deliver_refresh,
    hok, hdata]
  rw [run_retried _ _ _ (resent_retry _ _ _)]
  simp [afterRefresh, firstCall, resendConfig, requestInterceptor]

theorem refreshCalls_append (a b : List Call) :
    refreshCalls (a ++ b) = refreshCalls a + refreshCalls b := by
  simp [refreshCalls, List.count_append]

theorem authAxiosCalls_append (a b : List Call) :
    authAxiosCalls (a ++ b) = authAxiosCalls a + authAxiosCalls b := by
  simp [authAxiosCalls, List.filter_append]

theorem refreshCalls_authAxios (c : Config) :
    refreshCalls [{ client := Client.authAxios, config := c }] = 0 := by
  simp [refreshCalls, refreshCall]

theorem authAxiosCalls_authAxios (c : Config) :
    authAxiosCalls [{ client := Client.authAxios, config := c }] = 1 := by
  simp [authAxiosCalls]

/-- With three replies at hand a call of `authAxios` is settled. -/
theorem authAxiosRun_settles (w : World) (config : Config) (r1 r2 r3 : Reply)
    (rest : List Reply) :
    ∃ o, (authAxiosRun w config (r1 :: r2 :: r3 :: rest)).2 = .settled o := by
  by_cases h : ∀ r, r1 = some r → ¬(r.status = 401 ∧ config._retry = false)
  · exact ⟨_, by rw [authAxiosRun_direct w config r1 _ h]⟩
  · push_neg at h
    obtain ⟨first, rfl, h401, hretry⟩ := h
    cases hf : refreshError? r2 with
    | some e => exact ⟨_, by rw [authAxiosRun_refreshFailed w config first r2 _ e hretry h401 hf]⟩
    | none =>
      cases r2 with
      | none => simp [refreshError?, settle] at hf
      | some refreshed =>
        by_cases hok : validateStatus refreshed.status = true
        · cases hd : refreshed.data with
          | none => simp [refreshError?, settle, hok, hd] at hf
          | some data =>
            exact ⟨_, by rw [authAxiosRun_refreshed w config first refreshed data _ hretry h401 hok hd]⟩
        · simp [refreshError?, settle, hok] at hf

/-- C1: a request sent through `authAxios` makes, whatever the backend replies, at most one
call to the refresh endpoint and leaves at most twice (the send and one resend); three replies
settle it; and when the first reply is a 401, the refresh succeeds and the resend gets a 401
again, that second 401 is what the caller's promise rejects with, the calls made being
exactly the send, one refresh and one resend, however many more replies there are. -/
theorem authAxios_refreshes_and_resends_at_most_once (w : World) (config : Config)
    (replies : List Reply) :
    refreshCalls (authAxiosRun w config replies).1.trace ≤ refreshCalls w.trace + 1 ∧
    authAxiosCalls (authAxiosRun w config replies).1.trace ≤ authAxiosCalls w.trace + 2 ∧
    (3 ≤ replies.length → ∃ o, (authAxiosRun w config replies).2 = .settled o) ∧
    (∀ (first refreshed second : Response) (data : JsObj) (rest : List Reply),
      config._retry = false → first.status = 401 →
      validateStatus refreshed.status = true → refreshed.data = some data →
      second.status = 401 →
      replies = some first :: some refreshed :: some second :: rest →
      (authAxiosRun w config replies).2 =
          .settled (.rejected (.axios (resendConfig w config data) (some second))) ∧
        (authAxiosRun w config replies).1.trace =
          w.trace ++ [firstCall w config, refreshCall,
            { client := .authAxios, config := resendConfig w config data }]) := by
  refine ⟨?_, ?_, ?_, ?_⟩
  · obtain ⟨extra, htrace, hextra⟩ := authAxiosRun_trace w config replies
    rw [htrace, refreshCalls_append, refreshCalls_append, refreshCalls_authAxios]
    rcases hextra with h | h | ⟨c, h⟩
    · simp [h, refreshCalls]
    · simp [h, refreshCalls]
    · rw [h]
      have : refreshCalls [refreshCall, { client := Client.authAxios, config := c }] = 1 := by
        simp [refreshCalls, refreshCall]
      omega
  · obtain ⟨extra, htrace, hextra⟩ := authAxiosRun_trace w config replies
    rw [htrace, authAxiosCalls_append, authAxiosCalls_append, authAxiosCalls_authAxios]
    rcases hextra with h | h | ⟨c, h⟩
    · simp [h, authAxiosCalls]
    · simp [h, authAxiosCalls, refreshCall]
    · rw [h]
      have : authAxiosCalls [refreshCall, { client := Client.authAxios, config := c }] = 1 := by
        simp [authAxiosCalls, refreshCall]
      omega
  · intro hlen
    match replies, hlen with
    | r1 :: r2 :: r3 :: rest, _ => exact authAxiosRun_settles w config r1 r2 r3 rest
  · intro first refreshed second data rest hretry h401 hok hdata h401b hreplies
    subst hreplies
    refine ⟨?_, ?_⟩
    · rw [authAxiosRun_refreshed w config first refreshed data _ hretry h401 hok hdata]
      have hv : validateStatus second.status = false := by
        rw [h401b]
        rfl
      simp only [settle, hv]
      rfl
    · rw [authAxiosRun_refreshed w config first refreshed data _ hretry h401 hok hdata]
      rfl

theorem Headers.get_set_ne (h : Headers) (k v k2 : String) (hne : k2 ≠ k) :
    (Headers.set h k v).get k2 = h.get k2 := by
  induction h with
  | nil =>
    have : (k2 == k) = false := by simpa using hne
    simp [Headers.set, Headers.get, List.lookup, this]
  | cons kv rest ih =>
    obtain ⟨k0, v0⟩ := kv
    by_cases hk : k0 = k
    · subst hk
      have : (k2 == k0) = false := by simpa using hne
      simp [Headers.set, Headers.get, List.lookup, this]
    · simp only [Headers.set, hk, if_false, Headers.get, List.lookup]
      cases h2 : (k2 == k0) with
      | true => rfl
      | false => exact ih

/-- A witness of C1: the send gets a 401, the refresh yields `fresh`, the resend gets a 401
again, and a fourth reply is never asked for. -/
theorem authAxios_refreshes_and_resends_at_most_once_witness :
    (authAxiosRun signedIn sessionsRequest
        [some unauthorized, some refreshedReply, some unauthorized, some okReply]).2 =
      .settled (.rejected (.axios (resendConfig signedIn sessionsRequest
        [("access_token", .str "fresh")]) (some unauthorized))) ∧
    (authAxiosRun signedIn sessionsRequest
        [some unauthorized, some refreshedReply, some unauthorized, some okReply]).1.trace =
      signedIn.trace ++ [firstCall signedIn sessionsRequest, refreshCall,
        { client := .authAxios, config := resendConfig signedIn sessionsRequest
            [("access_token", .str "fresh")] }] :=
  (authAxios_refreshes_and_resends_at_most_once signedIn sessionsRequest
    [some unauthorized, some refreshedReply, some unauthorized, some okReply]).2.2.2
    unauthorized refreshedReply unauthorized [("access_token", .str "fresh")] [some okReply]
    rfl rfl rfl rfl rfl rfl

/-- C3: the request interceptor puts `Authorization: Bearer t` on the config when a non-empty
credential `t` is stored, leaving every other header and every other part of the config as
it was; with no credential stored it returns the config as it is. -/
theorem requestInterceptor_attaches_bearer (w : World) (config : Config) :
    (∀ t : String, w.accessToken = some t → t ≠ "" →
      (requestInterceptor w config).headers.get "Authorization" = some ("Bearer " ++ t) ∧
      (∀ k : String, k ≠ "Authorization" →
        (requestInterceptor w config).headers.get k = config.headers.get k) ∧
      requestInterceptor w config =
        { config with headers := config.headers.set "Authorization" ("Bearer " ++ t) }) ∧
    (w.accessToken = none → requestInterceptor w config = config) := by
  constructor
  · intro t ht hne
    have h : requestInterceptor w config =
        { config with headers := config.headers.set "Authorization" ("Bearer " ++ t) } := by
      simp [requestInterceptor, ht, hne]
    rw [h]
    exact ⟨Headers.get_set _ _ _, fun k hk => Headers.get_set_ne _ _ _ k hk, rfl⟩
  · intro hnone
    simp [requestInterceptor, hnone]

/-- A witness of C3 with the credential `old`. -/
theorem requestInterceptor_attaches_bearer_witness :
    (requestInterceptor signedIn sessionsRequest).headers.get "Authorization" =
        some ("Bearer " ++ "old") ∧
      requestInterceptor signedOut sessionsRequest = sessionsRequest :=
  ⟨((requestInterceptor_attaches_bearer signedIn sessionsRequest).1 "old" rfl (by decide)).1,
    (requestInterceptor_attaches_bearer signedOut sessionsRequest).2 rfl⟩

/-- The resend carries the bearer header of the refreshed credential, also when that
credential is the empty string. -/
theorem resendConfig_authorization (w : World) (config : Config) (data : JsObj) :
    (resendConfig w config data).headers.get "Authorization" =
      some ("Bearer " ++ (JsObj.get data "access_token").toJsString) := by
  unfold resendConfig requestInterceptor
  by_cases h : (JsObj.get data "access_token").toJsString = ""
  · simp only [h, ne_eq, not_true_eq_false, if_false, resent]
    exact Headers.get_set _ _ _
  · simp only [h, ne_eq, not_false_eq_true, if_true]
    exact Headers.get_set _ _ _

/-- The resend is the original request otherwise: same url, method and body, and marked. -/
theorem resendConfig_request (w : World) (config : Config) (data : JsObj) :
    (resendConfig w config data).url = config.url ∧
    (resendConfig w config data).method = config.method ∧
    (resendConfig w config data).data = config.data ∧
    (resendConfig w config data)._retry = true := by
  unfold resendConfig requestInterceptor
  by_cases h : (JsObj.get data "access_token").toJsString = ""
  · cases hw : w.accessToken with
    | none => simp [h, resent]
    | some t => by_cases ht : t = "" <;> simp [h, resent, ht]
  · cases hw : w.accessToken with
    | none => simp [h, resent]
    | some t => by_cases ht : t = "" <;> simp [h, resent, ht]

/-- C4: when a not yet retried request gets a 401 and the refresh call succeeds with the
access token `n`, the TokenStore holds `n` afterwards, the request that is resent is the
original one carrying `Authorization: Bearer n`, and what the resend yields, success or
failure, is what the caller gets. -/
theorem refresh_success_stores_resends_and_returns (w : World) (config : Config)
    (first refreshed : Response) (data : JsObj) (n : String) (reply : Reply)
    (rest : List Reply)
    (hretry : config._retry = false) (h401 : first.status = 401)
    (hok : validateStatus refreshed.status = true) (hdata : refreshed.data = some data)
    (hn : JsObj.get data "access_token" = .str n) :
    (authAxiosRun w config (some first :: some refreshed :: reply :: rest)).1.accessToken =
      some n ∧
    (authAxiosRun w config (some first :: some refreshed :: reply :: rest)).1.trace =
      w.trace ++ [firstCall w config, refreshCall,
        { client := .authAxios, config := resendConfig w config data }] ∧
    (resendConfig w config data).headers.get "Authorization" = some ("Bearer " ++ n) ∧
    (resendConfig w config data).url = config.url ∧
    (resendConfig w config data).method = config.method ∧
    (resendConfig w config data).data = config.data ∧
    (authAxiosRun w config (some first :: some refreshed :: reply :: rest)).2 =
      .settled (settle (resendConfig w config data) reply) := by
  rw [authAxiosRun_refreshed w config first refreshed data _ hretry h401 hok hdata]
  have hh := resendConfig_authorization w config data
  have hr := resendConfig_request w config data
  rw [hn] at hh
  exact ⟨by simp [afterRefresh, hn, JsVal.toJsString], rfl, hh, hr.1, hr.2.1, hr.2.2.1, rfl⟩

/-- A witness of C4: the resend succeeds. -/
theorem refresh_success_stores_resends_and_returns_witness :
    (authAxiosRun signedIn sessionsRequest
        [some unauthorized, some refreshedReply, some okReply]).1.accessToken = some "fresh" ∧
    (authAxiosRun signedIn sessionsRequest
        [some unauthorized, some refreshedReply, some okReply]).2 =
      .settled (.fulfilled okReply
        (resendConfig signedIn sessionsRequest [("access_token", .str "fresh")])) :=
  have h := refresh_success_stores_resends_and_returns signedIn sessionsRequest unauthorized
    refreshedReply [("access_token", .str "fresh")] "fresh" (some okReply) [] rfl rfl rfl rfl rfl
  ⟨h.1, h.2.2.2.2.2.2⟩

/-- C5 as stated fails: the send gets a 401 and the refresh call gets no response; the
caller's promise rejects with the error of the refresh call, not with the 401 of the
request. -/
theorem refresh_failure_propagates_original_counterexample :
    (authAxiosRun signedIn sessionsRequest [some unauthorized, none]).2 =
        .settled (.rejected (.axios refreshConfig none)) ∧
      (authAxiosRun signedIn sessionsRequest [some unauthorized, none]).2 ≠
        .settled (.rejected
          (.axios (requestInterceptor signedIn sessionsRequest) (some unauthorized))) := by
  decide

/-- C5, amended: when a not yet retried request gets a 401 and the refresh call fails, the
caller's promise rejects with what the `catch` block caught, the error of the refresh call. -/
theorem refresh_failure_propagates_refresh_error (w : World) (config : Config)
    (first : Response) (reply : Reply) (rest : List Reply) (refreshError : Failure)
    (hretry : config._retry = false) (h401 : first.status = 401)
    (hfail : refreshError? reply = some refreshError) :
    (authAxiosRun w config (some first :: reply :: rest)).2 =
      .settled (.rejected refreshError) := by
  rw [authAxiosRun_refreshFailed w config first reply rest refreshError hretry h401 hfail]

/-- A witness of the amended C5: the refresh call is answered with a 403. -/
theorem refresh_failure_propagates_refresh_error_witness :
    (authAxiosRun signedIn sessionsRequest
        [some unauthorized, some { status := 403, data := none }]).2 =
      .settled (.rejected (.axios refreshConfig (some { status := 403, data := none }))) :=
  refresh_failure_propagates_refresh_error signedIn sessionsRequest unauthorized
    (some { status := 403, data := none }) [] _ rfl rfl rfl

/-- C6: when a not yet retried request gets a 401 and the refresh call fails, the TokenStore
holds no credential afterwards and the page is reloaded once; and when a request fails with
anything that is not a 401 response, no response at all included, no refresh call is made,
the TokenStore and the page are left alone and the caller's promise rejects with that same
error. -/
theorem refresh_failure_resets_and_other_errors_pass (w : World) (config : Config) :
    (∀ (first : Response) (reply : Reply) (rest : List Reply) (refreshError : Failure),
      config._retry = false → first.status = 401 → refreshError? reply = some refreshError →
      (authAxiosRun w config (some first :: reply :: rest)).1.accessToken = none ∧
      (authAxiosRun w config (some first :: reply :: rest)).1.reloads = w.reloads + 1) ∧
    (∀ (reply : Reply) (rest : List Reply) (error : Failure),
      settle (requestInterceptor w config) reply = .rejected error →
      error.status? ≠ some 401 →
      (authAxiosRun w config (reply :: rest)).2 = .settled (.rejected error) ∧
      (authAxiosRun w config (reply :: rest)).1.accessToken = w.accessToken ∧
      (authAxiosRun w config (reply :: rest)).1.reloads = w.reloads ∧
      refreshCalls (authAxiosRun w config (reply :: rest)).1.trace = refreshCalls w.trace) := by
  constructor
  · intro first reply rest refreshError hretry h401 hfail
    rw [authAxiosRun_refreshFailed w config first reply rest refreshError hretry h401 hfail]
    exact ⟨rfl, rfl⟩
  · intro reply rest error hsettle hne
    have h : ∀ r, reply = some r → ¬(r.status = 401 ∧ config._retry = false) := by
      intro r hr h401
      subst hr
      have hv : validateStatus r.status = false := by
        rw [h401.1]
        rfl
      simp only [settle, hv, Bool.false_eq_true, if_false, Outcome.rejected.injEq] at hsettle
      rw [← hsettle] at hne
      exact hne (by simp [Failure.status?, h401.1])
    rw [authAxiosRun_direct w config reply rest h, hsettle]
    refine ⟨rfl, rfl, rfl, ?_⟩
    show refreshCalls (w.trace ++ [firstCall w config]) = refreshCalls w.trace
    rw [refreshCalls_append, firstCall, refreshCalls_authAxios]
    rfl

/-- A witness of C6: a refresh call that gets no response, and a request that gets a 500. -/
theorem refresh_failure_resets_and_other_errors_pass_witness :
    ((authAxiosRun signedIn sessionsRequest [some unauthorized, none]).1.accessToken = none ∧
      (authAxiosRun signedIn sessionsRequest [some unauthorized, none]).1.reloads =
        signedIn.reloads + 1) ∧
    ((authAxiosRun signedIn sessionsRequest [some { status := 500, data := none }]).2 =
        .settled (.rejected (.axios (requestInterceptor signedIn sessionsRequest)
          (some { status := 500, data := none }))) ∧
      (authAxiosRun signedIn sessionsRequest
        [some { status := 500, data := none }]).1.accessToken = signedIn.accessToken ∧
      (authAxiosRun signedIn sessionsRequest
        [some { status := 500, data := none }]).1.reloads = signedIn.reloads ∧
      refreshCalls (authAxiosRun signedIn sessionsRequest
        [some { status := 500, data := none }]).1.trace = refreshCalls signedIn.trace) :=
  ⟨(refresh_failure_resets_and_other_errors_pass signedIn sessionsRequest).1
      unauthorized none [] _ rfl rfl rfl,
    (refresh_failure_resets_and_other_errors_pass signedIn sessionsRequest).2
      (some { status := 500, data := none }) [] _ rfl (by decide)⟩

/-- C2 as stated fails: two requests are in flight, both get a 401 before any reply to a
refresh call arrives, and two calls to the refresh endpoint have been issued, not one; the
second request is waiting for its own refresh call. -/
theorem concurrent_401s_single_refresh_counterexample :
    refreshCalls (((((({ world := signedIn, tasks := [] } : Flight).send sessionsRequest).send
        sessionRequest).deliverTo 0 (some unauthorized)).deliverTo 1
        (some unauthorized)).world.trace) = 2 ∧
    refreshCalls (((((({ world := signedIn, tasks := [] } : Flight).send sessionsRequest).send
        sessionRequest).deliverTo 0 (some unauthorized)).deliverTo 1
        (some unauthorized)).world.trace) ≠ 1 := by
  decide

/-- C2, amended: the response interceptor has no state shared between requests, so each not
yet retried request that gets a 401 issues its own refresh call.  With two requests in flight
that both get a 401 before any reply to a refresh call arrives, two calls to the refresh
endpoint are issued, and each request waits for the reply to its own call; this is so when
both requests were sent before the first 401 arrived, and when the second was sent while the
refresh call of the first was already on the wire. -/
theorem concurrent_401s_refresh_once_each (w : World) (a b : Config) (ra rb : Response)
    (ha : a._retry = false) (hb : b._retry = false)
    (h401a : ra.status = 401) (h401b : rb.status = 401) :
    ((((({ world := w, tasks := [] } : Flight).send a).send b).deliverTo 0 (some ra)).deliverTo 1
        (some rb) =
      { world := { w with trace := w.trace ++
            [firstCall w a, firstCall w b, refreshCall, refreshCall] },
        tasks := [.awaitingRefresh { requestInterceptor w a with _retry := true }
                    (.axios (requestInterceptor w a) (some ra)),
                  .awaitingRefresh { requestInterceptor w b with _retry := true }
                    (.axios (requestInterceptor w b) (some rb))] }) ∧
    ((((({ world := w, tasks := [] } : Flight).send a).deliverTo 0 (some ra)).send b).deliverTo 1
        (some rb) =
      { world := { w with trace := w.trace ++
            [firstCall w a, refreshCall, firstCall w b, refreshCall] },
        tasks := [.awaitingRefresh { requestInterceptor w a with _retry := true }
                    (.axios (requestInterceptor w a) (some ra)),
                  .awaitingRefresh { requestInterceptor w b with _retry := true }
                    (.axios (requestInterceptor w b) (some rb))] }) ∧
    refreshCalls ((((({ world := w, tasks := [] } : Flight).send a).send b).deliverTo 0
        (some ra)).deliverTo 1 (some rb)).world.trace = refreshCalls w.trace + 2 ∧
    refreshCalls ((((({ world := w, tasks := [] } : Flight).send a).deliverTo 0
        (some ra)).send b).deliverTo 1 (some rb)).world.trace = refreshCalls w.trace + 2 := by
  have ha2 : (requestInterceptor w a)._retry = false := by
    rw [requestInterceptor_retry]
    exact ha
  have hb2 : (requestInterceptor w b)._retry = false := by
    rw [requestInterceptor_retry]
    exact hb
  have h1 : (((({ world := w, tasks := [] } : Flight).send a).send b).deliverTo 0
      (some ra)).deliverTo 1 (some rb) =
      { world := { w with trace := w.trace ++
            [firstCall w a, firstCall w b, refreshCall, refreshCall] },
        tasks := [.awaitingRefresh { requestInterceptor w a with _retry := true }
                    (.axios (requestInterceptor w a) (some ra)),
                  .awaitingRefresh { requestInterceptor w b with _retry := true }
                    (.axios (requestInterceptor w b) (some rb))] } := by
    simp only [Flight.send, Flight.deliverTo, authAxios, requestInterceptor_trace,
      List.nil_append, List.cons_append, List.get?, List.set, deliver_first, h401a, h401b, ha2,
      hb2, and_self, if_true, firstCall, List.append_assoc]
  have h2 : (((({ world := w, tasks := [] } : Flight).send a).deliverTo 0
      (some ra)).send b).deliverTo 1 (some rb) =
      { world := { w with trace := w.trace ++
            [firstCall w a, refreshCall, firstCall w b, refreshCall] },
        tasks := [.awaitingRefresh { requestInterceptor w a with _retry := true }
                    (.axios (requestInterceptor w a) (some ra)),
                  .awaitingRefresh { requestInterceptor w b with _retry := true }
                    (.axios (requestInterceptor w b) (some rb))] } := by
    simp only [Flight.send, Flight.deliverTo, authAxios, requestInterceptor_trace,
      List.nil_append, List.cons_append, List.get?, List.set, deliver_first, h401a, h401b, ha2,
      hb2, and_self, if_true, firstCall, List.append_assoc]
  refine ⟨h1, h2, ?_, ?_⟩
  · rw [h1]
    simp [refreshCalls, firstCall, refreshCall, List.count_append]
  · rw [h2]
    simp [refreshCalls, firstCall, refreshCall, List.count_append]

/-- A witness of the amended C2. -/
theorem concurrent_401s_refresh_once_each_witness :
    refreshCalls ((((({ world := signedIn, tasks := [] } : Flight).send sessionsRequest).send
        sessionRequest).deliverTo 0 (some unauthorized)).deliverTo 1
        (some unauthorized)).world.trace = refreshCalls signedIn.trace + 2 :=
  (concurrent_401s_refresh_once_each signedIn sessionsRequest sessionRequest unauthorized
    unauthorized rfl rfl rfl rfl).2.2.1

/-- C7, the failing case: the logout notification gets a 401 and the refresh call made for it
succeeds with the credential `fresh`.  When `logout` has completed the identity is null, but
the TokenStore holds `fresh`: the response interceptor stored it after `logout` had cleared
the store. -/
theorem logout_refresh_restores_credential :
    (logout signedIn { user := some [("is_verified", .bool true)], isLoading := false }
        [some unauthorized, some refreshedReply, some okReply]).1.accessToken = some "fresh" ∧
    (logout signedIn { user := some [("is_verified", .bool true)], isLoading := false }
        [some unauthorized, some refreshedReply, some okReply]).2.1.user = none ∧
    (logout signedIn { user := some [("is_verified", .bool true)], isLoading := false }
        [some unauthorized, some refreshedReply, some okReply]).2.2 = .returned := by
  decide

/-- C8: `login` called with an identity whose `is_verified` is not truthy (it is `false`, or
missing, or the identity itself is null) leaves the user state and both keys of the
TokenStore as they were, whatever the token. -/
theorem login_rejects_unverified (w : World) (s : AuthState) (userData : Option JsObj)
    (token : JsVal) (h : (isVerifiedOf userData).truthy = false) :
    (login w s userData token).2 = s ∧
    (login w s userData token).1.accessToken = w.accessToken ∧
    (login w s userData token).1.justLoggedIn = w.justLoggedIn := by
  simp [login, h]

/-- A witness of C8: an identity with `is_verified: false`. -/
theorem login_rejects_unverified_witness :
    (login signedOut {} (some unverifiedUser) (.str "issued")).2 = {} ∧
    (login signedOut {} (some unverifiedUser) (.str "issued")).1.accessToken =
      signedOut.accessToken ∧
    (login signedOut {} (some unverifiedUser) (.str "issued")).1.justLoggedIn =
      signedOut.justLoggedIn :=
  login_rejects_unverified signedOut {} (some unverifiedUser) (.str "issued") (by decide)

/-- C9, the failing case: the login endpoint issues the credential `issued` and `/auth/me`
answers with an identity whose `is_verified` is `false`.  When `handleLogin` has completed the
user is still null and the form shows the message, but the TokenStore holds `issued`: it was
stored before the identity was fetched and is not removed. -/
theorem handleLogin_unverified_keeps_credential :
    (handleLogin signedOut { user := none, isLoading := false }
        { identifier := "arfa", password := "Secret1!" }
        [some issuedReply, some unverifiedReply]).1.accessToken = some "issued" ∧
    (handleLogin signedOut { user := none, isLoading := false }
        { identifier := "arfa", password := "Secret1!" }
        [some issuedReply, some unverifiedReply]).2.1.user = none ∧
    (handleLogin signedOut { user := none, isLoading := false }
        { identifier := "arfa", password := "Secret1!" }
        [some issuedReply, some unverifiedReply]).2.2.1.error =
      "Please verify your email before logging in." ∧
    (handleLogin signedOut { user := none, isLoading := false }
        { identifier := "arfa", password := "Secret1!" }
        [some issuedReply, some unverifiedReply]).2.2.2 = .returned := by
  decide

/-- C10, the failing case: a credential is stored and `/auth/me` answers with an identity
whose `is_verified` is `false`.  Boot sets the user to that identity and the protected route
renders its content. -/
theorem initializeAuth_accepts_unverified :
    (initializeAuth signedIn {} { pathname := "/chat" } [some unverifiedReply]).2.1 =
      { user := some unverifiedUser, isLoading := false } ∧
    ProtectedRoute
      (initializeAuth signedIn {} { pathname := "/chat" } [some unverifiedReply]).2.1 =
      .children := by
  decide

/-- The first send carries the stored credential as bearer. -/
theorem firstCall_authorization (w : World) (config : Config) (t : String)
    (ht : w.accessToken = some t) (hne : t ≠ "") :
    (firstCall w config).config.headers.get "Authorization" = some ("Bearer " ++ t) := by
  have h : requestInterceptor w config =
      { config with headers := config.headers.set "Authorization" ("Bearer " ++ t) } := by
    simp [requestInterceptor, ht, hne]
  rw [firstCall, h]
  exact Headers.get_set _ _ _

/-! ## Boot -/

/-- Boot, with its URL step named. -/
theorem initializeAuth_eq (w : World) (s : AuthState) (loc : Location) (replies : List Reply) :
    initializeAuth w s loc replies =
      if tokenTruthy (storeUrlToken w loc).accessToken then
        match (authAxiosRun (storeUrlToken w loc) meConfig replies).2.outcome? with
        | none => ((authAxiosRun (storeUrlToken w loc) meConfig replies).1, s, stripUrlToken loc,
            .pending)
        | some (.fulfilled response _) =>
          ((authAxiosRun (storeUrlToken w loc) meConfig replies).1,
            { user := response.data, isLoading := false }, stripUrlToken loc, .returned)
        | some (.rejected error) =>
          if error.status? = some 401 then
            ({ (authAxiosRun (storeUrlToken w loc) meConfig replies).1 with accessToken := none },
              { user := none, isLoading := false }, stripUrlToken loc, .returned)
          else ((authAxiosRun (storeUrlToken w loc) meConfig replies).1,
            { s with isLoading := false }, stripUrlToken loc, .returned)
      else (storeUrlToken w loc, { s with isLoading := false }, stripUrlToken loc, .returned) := by
  rfl

/-- C11: a boot with no stored credential and no `access_token` parameter in the URL makes no
network call at all (the browser state is left as it was), returns without waiting for any
reply, and ends with `isLoading` false and the user as it was, which at boot is null. -/
theorem boot_without_credential_is_anonymous (w : World) (s : AuthState) (loc : Location)
    (replies : List Reply) (hstore : w.accessToken = none)
    (hurl : loc.search.lookup "access_token" = none) :
    initializeAuth w s loc replies = (w, { s with isLoading := false }, loc, .returned) ∧
    (initializeAuth w {} loc replies).2.1 = { user := none, isLoading := false } ∧
    (initializeAuth w s loc replies).1.trace = w.trace := by
  have h : initializeAuth w s loc replies = (w, { s with isLoading := false }, loc, .returned) := by
    simp [initializeAuth, hurl, hstore, tokenTruthy]
  have h0 : initializeAuth w {} loc replies =
      (w, { ({} : AuthState) with isLoading := false }, loc, .returned) := by
    simp [initializeAuth, hurl, hstore, tokenTruthy]
  exact ⟨h, by rw [h0], by rw [h]⟩

/-- A witness of C11. -/
theorem boot_without_credential_is_anonymous_witness :
    (initializeAuth signedOut {} { pathname := "/chat" } [some okReply]).2.1 =
      { user := none, isLoading := false } :=
  (boot_without_credential_is_anonymous signedOut {} { pathname := "/chat" } [some okReply]
    rfl rfl).2.1

/-- C12 as stated fails: a credential is stored, the identity request gets a 401 and the
refresh call made for it gets no response.  The failure boot catches is that of the refresh
call, which is not a 401 response, and yet the credential is gone from the TokenStore: the
response interceptor removed it. -/
theorem boot_other_failure_keeps_credential_counterexample :
    (authAxiosRun (storeUrlToken signedIn { pathname := "/chat" }) meConfig
        [some unauthorized, none]).2 = .settled (.rejected (.axios refreshConfig none)) ∧
    (Failure.axios refreshConfig none).status? ≠ some 401 ∧
    (initializeAuth signedIn {} { pathname := "/chat" } [some unauthorized, none]).1.accessToken =
      none ∧
    (initializeAuth signedIn {} { pathname := "/chat" } [some unauthorized, none]).1.accessToken ≠
      (storeUrlToken signedIn { pathname := "/chat" }).accessToken := by
  decide

/-- C12, amended: in a boot in which a credential is stored and the identity fetch fails, a
failure that is a response with status 401 makes boot remove the credential and set the user
to null; on every other failure boot leaves the user state as it was and does not touch the
TokenStore, which stays as the call of `authAxios` left it, so the credential stays whenever
the identity request itself was not answered with a 401. -/
theorem boot_failure_handling (w : World) (s : AuthState) (loc : Location)
    (replies : List Reply) (error : Failure)
    (hcred : tokenTruthy (storeUrlToken w loc).accessToken = true)
    (hfail : (authAxiosRun (storeUrlToken w loc) meConfig replies).2 =
      .settled (.rejected error)) :
    (error.status? = some 401 →
      (initializeAuth w s loc replies).1.accessToken = none ∧
      (initializeAuth w s loc replies).2.1 = { user := none, isLoading := false }) ∧
    (error.status? ≠ some 401 →
      (initializeAuth w s loc replies).1 =
        (authAxiosRun (storeUrlToken w loc) meConfig replies).1 ∧
      (initializeAuth w s loc replies).2.1 = { s with isLoading := false }) ∧
    (error.status? ≠ some 401 →
      ∀ (reply : Reply) (rest : List Reply), replies = reply :: rest →
        (∀ r, reply = some r → r.status ≠ 401) →
        (initializeAuth w s loc replies).1.accessToken = (storeUrlToken w loc).accessToken) := by
  have hout : (authAxiosRun (storeUrlToken w loc) meConfig replies).2.outcome? =
      some (.rejected error) := by
    rw [hfail]
    rfl
  refine ⟨?_, ?_, ?_⟩
  · intro h401
    rw [initializeAuth_eq]
    simp [hcred, hout, h401]
  · intro hne
    rw [initializeAuth_eq]
    simp [hcred, hout, hne]
  · intro hne reply rest hreplies hfirst
    rw [initializeAuth_eq]
    simp only [hcred, hout, hne, if_true, if_false]
    subst hreplies
    rw [authAxiosRun_direct (storeUrlToken w loc) meConfig reply rest
      (fun r hr h => hfirst r hr h.1)]

/-- A witness of the amended C12: the identity request gets no response. -/
theorem boot_failure_handling_witness :
    (initializeAuth signedIn {} { pathname := "/chat" } [none]).1.accessToken =
      (storeUrlToken signedIn { pathname := "/chat" }).accessToken :=
  (boot_failure_handling signedIn {} { pathname := "/chat" } [none]
    (.axios (requestInterceptor signedIn meConfig) none) rfl rfl).2.2 (by decide) none [] rfl
    (fun _ h => by cases h)

/-- Deleting a parameter leaves the entries of every other name as they were. -/
theorem filter_ne_keeps (search : List (String × String)) (name k : String) (hk : k ≠ name) :
    (search.filter (fun p => p.1 ≠ name)).filter (fun p => p.1 = k) =
      search.filter (fun p => p.1 = k) := by
  rw [List.filter_filter]
  congr 1
  funext p
  by_cases h : p.1 = k
  · simp [h, hk]
  · simp [h]

/-- Deleting a parameter leaves none of that name. -/
theorem lookup_filter_ne (search : List (String × String)) (name : String) :
    (search.filter (fun p => p.1 ≠ name)).lookup name = none := by
  induction search with
  | nil => rfl
  | cons p rest ih =>
    obtain ⟨k, v⟩ := p
    by_cases h : k = name
    · subst h
      simp only [List.filter, ne_eq, not_true_eq_false, decide_False]
      exact ih
    · have h2 : (name == k) = false := by
        simp only [beq_eq_false_iff_ne, ne_eq]
        exact fun e => h e.symm
      simp only [List.filter, h, ne_eq, not_false_eq_true, decide_True, List.lookup, h2]
      exact ih

/-- The location boot ends with is the one of its URL step, whatever the backend replies. -/
theorem initializeAuth_location (w : World) (s : AuthState) (loc : Location)
    (replies : List Reply) : (initializeAuth w s loc replies).2.2.1 = stripUrlToken loc := by
  rw [initializeAuth_eq]
  by_cases hcred : tokenTruthy (storeUrlToken w loc).accessToken = true
  · simp only [hcred, if_true]
    cases (authAxiosRun (storeUrlToken w loc) meConfig replies).2.outcome? with
    | none => rfl
    | some o =>
      cases o with
      | fulfilled r c => rfl
      | rejected e => by_cases h : e.status? = some 401 <;> simp [h]
  · simp [hcred]

/-- C13: when the query string of the boot URL carries a non-empty `access_token` parameter,
its value is stored as the credential (the identity request leaves with it as bearer), and
the location boot installs has the same path, no `access_token` parameter, and every other
parameter with its value, in the order they had. -/
theorem boot_stores_and_strips_url_token (w : World) (s : AuthState) (loc : Location)
    (replies : List Reply) (v : String)
    (hurl : loc.search.lookup "access_token" = some v) (hv : v ≠ "") :
    (storeUrlToken w loc).accessToken = some v ∧
    (initializeAuth w s loc []).1.accessToken = some v ∧
    (initializeAuth w s loc []).1.trace =
      w.trace ++ [firstCall (storeUrlToken w loc) meConfig] ∧
    (firstCall (storeUrlToken w loc) meConfig).config.headers.get "Authorization" =
      some ("Bearer " ++ v) ∧
    (initializeAuth w s loc replies).2.2.1.pathname = loc.pathname ∧
    (initializeAuth w s loc replies).2.2.1.search =
      loc.search.filter (fun p => p.1 ≠ "access_token") ∧
    (initializeAuth w s loc replies).2.2.1.search.lookup "access_token" = none ∧
    (∀ k : String, k ≠ "access_token" →
      (initializeAuth w s loc replies).2.2.1.search.filter (fun p => p.1 = k) =
        loc.search.filter (fun p => p.1 = k)) := by
  have htruthy : tokenTruthy (some v) = true := by simp [tokenTruthy, hv]
  have hw : storeUrlToken w loc = { w with accessToken := some v } := by
    simp [storeUrlToken, hurl, htruthy]
  have hloc : stripUrlToken loc =
      { loc with search := loc.search.filter (fun p => p.1 ≠ "access_token"), hash := "" } := by
    simp [stripUrlToken, hurl, htruthy]
  have hpending : initializeAuth w s loc [] =
      ((authAxiosRun (storeUrlToken w loc) meConfig []).1, s, stripUrlToken loc, .pending) := by
    rw [initializeAuth_eq, hw]
    simp [htruthy, authAxiosRun, authAxios, Task.run, Task.outcome?]
  refine ⟨by rw [hw], ?_, ?_, ?_, ?_, ?_, ?_, ?_⟩
  · rw [hpending, hw]
    rfl
  · rw [hpending, hw]
    rfl
  · rw [hw]
    exact ((firstCall_authorization { w with accessToken := some v } meConfig v
      rfl hv))
  · rw [initializeAuth_location, hloc]
  · rw [initializeAuth_location, hloc]
  · rw [initializeAuth_location, hloc]
    exact lookup_filter_ne loc.search "access_token"
  · intro k hk
    rw [initializeAuth_location, hloc]
    exact filter_ne_keeps loc.search "access_token" k hk

/-- A witness of C13: the URL a Google sign-in comes back to. -/
theorem boot_stores_and_strips_url_token_witness :
    (initializeAuth signedOut {}
        { pathname := "/chat", search := [("lang", "ur"), ("access_token", "oauth")] }
        []).1.accessToken = some "oauth" ∧
    (initializeAuth signedOut {}
        { pathname := "/chat", search := [("lang", "ur"), ("access_token", "oauth")] }
        [some okReply]).2.2.1.search = [("lang", "ur")] :=
  have h := boot_stores_and_strips_url_token signedOut {}
    { pathname := "/chat", search := [("lang", "ur"), ("access_token", "oauth")] }
    [some okReply] "oauth" rfl (by decide)
  ⟨h.2.1, h.2.2.2.2.2.1⟩

/-- C14: `isLoading` only ever goes from true to false.  Every boot that returns, with no
credential, with the identity fetched, after a 401 or after any other error, ends with
`isLoading` false; a boot with no credential returns at once and any boot returns once
three replies are there; and neither `login` nor `logout` changes `isLoading`. -/
theorem booting_is_left_and_not_reentered (w : World) (s : AuthState) (loc : Location)
    (replies : List Reply) :
    ((initializeAuth w s loc replies).2.2.2 = .returned →
      (initializeAuth w s loc replies).2.1.isLoading = false) ∧
    (tokenTruthy (storeUrlToken w loc).accessToken = false →
      (initializeAuth w s loc replies).2.2.2 = .returned) ∧
    (3 ≤ replies.length → (initializeAuth w s loc replies).2.2.2 = .returned) ∧
    (∀ (userData : Option JsObj) (token : JsVal),
      (login w s userData token).2.isLoading = s.isLoading) ∧
    (logout w s replies).2.1.isLoading = s.isLoading := by
  refine ⟨?_, ?_, ?_, ?_, ?_⟩
  · rw [initializeAuth_eq]
    by_cases hcred : tokenTruthy (storeUrlToken w loc).accessToken = true
    · simp only [hcred, if_true]
      cases (authAxiosRun (storeUrlToken w loc) meConfig replies).2.outcome? with
      | none => intro h; cases h
      | some o =>
        cases o with
        | fulfilled r c => intro _; rfl
        | rejected e => by_cases h : e.status? = some 401 <;> simp [h]
    · simp [hcred]
  · intro hcred
    rw [initializeAuth_eq]
    simp [hcred]
  · intro hlen
    rw [initializeAuth_eq]
    by_cases hcred : tokenTruthy (storeUrlToken w loc).accessToken = true
    · simp only [hcred, if_true]
      match replies, hlen with
      | r1 :: r2 :: r3 :: rest, _ =>
        obtain ⟨o, ho⟩ := authAxiosRun_settles (storeUrlToken w loc) meConfig r1 r2 r3 rest
        rw [ho]
        cases o with
        | fulfilled r c => rfl
        | rejected e => by_cases h : e.status? = some 401 <;> simp [Task.outcome?, h]
    · simp [hcred]
  · intro userData token
    unfold login
    by_cases h : (isVerifiedOf userData).truthy = true <;> simp [h]
  · simp only [logout]
    split <;> rfl

/-- A witness of C14: a boot whose identity request is answered with a 500. -/
theorem booting_is_left_and_not_reentered_witness :
    (initializeAuth signedIn {} { pathname := "/chat" }
      [some { status := 500, data := none }]).2.1.isLoading = false :=
  (booting_is_left_and_not_reentered signedIn {} { pathname := "/chat" }
    [some { status := 500, data := none }]).1 (by decide)

/-! ## The chat page -/

/-- The guard of `sendMessage` fires exactly on the texts made of whitespace only. -/
theorem trim_eq_empty_iff (s : String) :
    trim s = "" ↔ s.toList.all isJsWhitespace = true := by
  have hmk : ∀ l : List Char, String.mk l = "" ↔ l = [] := by
    intro l
    constructor
    · intro h
      have := congrArg String.data h
      simpa using this
    · intro h
      rw [h]
  unfold trim
  rw [hmk, List.reverse_eq_nil_iff, List.dropWhile_eq_nil_iff]
  constructor
  · intro h
    rw [List.all_eq_true]
    by_contra hne
    push_neg at hne
    have hne2 : ¬ ∀ x ∈ s.toList, isJsWhitespace x = true := by
      push_neg
      obtain ⟨x, hx, hxw⟩ := hne
      exact ⟨x, hx, hxw⟩
    rw [← List.dropWhile_eq_nil_iff] at hne2
    cases hd : s.toList.dropWhile isJsWhitespace with
    | nil => exact hne2 hd
    | cons a rest =>
      have ha : isJsWhitespace a = true := by
        apply h a
        rw [hd]
        simp
      have hhead := List.head_dropWhile_not isJsWhitespace s.toList (by rw [hd]; simp)
      simp only [hd, List.head_cons] at hhead
      rw [ha] at hhead
      exact absurd hhead (by decide)
  · intro h x hx
    rw [List.all_eq_true] at h
    have hnil : s.toList.dropWhile isJsWhitespace = [] := by
      rw [List.dropWhile_eq_nil_iff]
      exact h
    rw [hnil] at hx
    simp at hx

/-- C15: for a text that is empty or made of whitespace only, `sendMessage` returns at once:
no request leaves (the browser state is as it was) and the React state, message log, input
field, loading flag and active session included, is as it was. -/
theorem sendMessage_ignores_blank (w : World) (c : ChatState) (messageText : String)
    (sentAt repliedAt : Clock) (replies : List Reply)
    (hblank : messageText.toList.all isJsWhitespace = true) :
    sendMessage w c messageText sentAt repliedAt replies = (w, c, none, .returned) ∧
    (∀ p : Page, p.sendMessage messageText sentAt = p) := by
  have h := (trim_eq_empty_iff messageText).2 hblank
  constructor
  · simp [sendMessage, h]
  · intro p
    simp [Page.sendMessage, h]

/-- A witness of C15: a text of blanks, a tab and a line break. -/
theorem sendMessage_ignores_blank_witness :
    sendMessage signedIn openChat "  \t\n" sentClock repliedClock [some answerReply] =
      (signedIn, openChat, none, .returned) :=
  (sendMessage_ignores_blank signedIn openChat "  \t\n" sentClock repliedClock
    [some answerReply] (by decide)).1

/-- Whatever the outcome of the chat request, the handler appends exactly one message to the
log it finds. -/
theorem sendMessageSettled_messages (w : World) (c : ChatState) (currentSession : Option JsObj)
    (uploadedFile : JsVal) (now : Clock) (outcome : Outcome) :
    ∃ m : JsObj, (sendMessageSettled w c currentSession uploadedFile now outcome).2.1.messages =
      c.messages ++ [m] := by
  cases outcome with
  | rejected e => exact ⟨_, rfl⟩
  | fulfilled response cfg =>
    cases hd : response.data with
    | none => exact ⟨assistantMessage (.str fallbackText) now, by
        simp [sendMessageSettled, hd, sendMessageCatch]⟩
    | some data =>
      refine ⟨assistantMessage (JsObj.get data "answer") now, ?_⟩
      simp only [sendMessageSettled, hd]
      split <;> rfl

/-- C16: for a text that is not blank, when `sendMessage` reaches its `await`, the chat
request being on the wire and unanswered, the log is the former log followed by the user
message with that text; and however the request is answered later, or not at all, the log
begins with the former log followed by that user message. -/
theorem sendMessage_echoes_before_reply (w : World) (c : ChatState) (messageText : String)
    (sentAt repliedAt : Clock) (replies : List Reply)
    (htext : messageText.toList.all isJsWhitespace = false) :
    sendMessage w c messageText sentAt repliedAt [] =
      ({ w with trace := w.trace ++ [firstCall w (chatConfig messageText c.currentSession)] },
        { c with messages := c.messages ++ [userMessage messageText sentAt], inputMessage := "",
                 isLoading := true }, none, .pending) ∧
    JsObj.get (userMessage messageText sentAt) "role" = .str "user" ∧
    JsObj.get (userMessage messageText sentAt) "content" = .str messageText ∧
    List.IsPrefix (c.messages ++ [userMessage messageText sentAt])
      (sendMessage w c messageText sentAt repliedAt replies).2.1.messages := by
  have hne : ¬ trim messageText = "" := by
    rw [trim_eq_empty_iff, htext]
    decide
  refine ⟨?_, rfl, rfl, ?_⟩
  · simp [sendMessage, hne, authAxiosRun, Task.run, Task.outcome?, authAxios, firstCall,
      sendMessageStart]
  · simp only [sendMessage, hne, if_false]
    cases ho : (authAxiosRun w (chatConfig messageText c.currentSession) replies).2.outcome? with
    | none => exact List.prefix_refl _
    | some outcome =>
      obtain ⟨m, hm⟩ := sendMessageSettled_messages
        (authAxiosRun w (chatConfig messageText c.currentSession) replies).1
        (sendMessageStart c messageText sentAt) c.currentSession c.uploadedFile repliedAt outcome
      simp only [hm]
      exact List.prefix_append _ _

/-- A witness of C16: the chat request is never answered with anything but a network
failure. -/
theorem sendMessage_echoes_before_reply_witness :
    List.IsPrefix (openChat.messages ++ [userMessage "ابو" sentClock])
      (sendMessage signedIn openChat "ابو" sentClock repliedClock [none]).2.1.messages :=
  (sendMessage_echoes_before_reply signedIn openChat "ابو" sentClock repliedClock [none]
    (by decide)).2.2.2

/-- C17: for a text that is not blank, when the chat request is fulfilled with a body whose
`answer` is `a`, `sendMessage` run on its own leaves the log equal to the former log
followed by the user message with that text and the assistant message with content `a`, in
this order. -/
theorem sendMessage_success_appends_two (w : World) (c : ChatState) (messageText : String)
    (sentAt repliedAt : Clock) (replies : List Reply) (response : Response) (sent : Config)
    (data : JsObj)
    (htext : messageText.toList.all isJsWhitespace = false)
    (hok : (authAxiosRun w (chatConfig messageText c.currentSession) replies).2 =
      .settled (.fulfilled response sent))
    (hdata : response.data = some data) :
    (sendMessage w c messageText sentAt repliedAt replies).2.1.messages =
      c.messages ++ [userMessage messageText sentAt,
        assistantMessage (JsObj.get data "answer") repliedAt] ∧
    JsObj.get (userMessage messageText sentAt) "role" = .str "user" ∧
    JsObj.get (userMessage messageText sentAt) "content" = .str messageText ∧
    JsObj.get (assistantMessage (JsObj.get data "answer") repliedAt) "role" = .str "assistant" ∧
    JsObj.get (assistantMessage (JsObj.get data "answer") repliedAt) "content" =
      JsObj.get data "answer" ∧
    (sendMessage w c messageText sentAt repliedAt replies).2.2.2 = .returned := by
  have hne : ¬ trim messageText = "" := by
    rw [trim_eq_empty_iff, htext]
    decide
  have ho : (authAxiosRun w (chatConfig messageText c.currentSession) replies).2.outcome? =
      some (.fulfilled response sent) := by
    rw [hok]
    rfl
  refine ⟨?_, rfl, rfl, rfl, rfl, ?_⟩
  · simp only [sendMessage, hne, if_false, ho, sendMessageSettled, hdata]
    split <;> simp [sendMessageStart, fetchSessionsStart]
  · simp only [sendMessage, hne, if_false, ho]

/-- A witness of C17: the round trip of the specification, `ابو` answered with `جواب`. -/
theorem sendMessage_success_appends_two_witness :
    (sendMessage signedIn readyChat "ابو" sentClock repliedClock
        [some answerReply]).2.1.messages =
      readyChat.messages ++ [userMessage "ابو" sentClock,
        assistantMessage (JsObj.get [("answer", .str "جواب"), ("session_id", .str "abc")]
          "answer") repliedClock] :=
  (sendMessage_success_appends_two signedIn readyChat "ابو" sentClock repliedClock
    [some answerReply] answerReply
    (requestInterceptor signedIn (chatConfig "ابو" readyChat.currentSession))
    [("answer", .str "جواب"), ("session_id", .str "abc")] (by decide) (by decide) rfl).1

/-- C18: for a text that is not blank, when the chat request is rejected, `sendMessage` run
on its own leaves the log equal to the former log followed by the user message with that
text and one assistant message carrying the fixed fallback text, and the loading flag
false. -/
theorem sendMessage_failure_appends_fallback (w : World) (c : ChatState) (messageText : String)
    (sentAt repliedAt : Clock) (replies : List Reply) (error : Failure)
    (htext : messageText.toList.all isJsWhitespace = false)
    (hfail : (authAxiosRun w (chatConfig messageText c.currentSession) replies).2 =
      .settled (.rejected error)) :
    (sendMessage w c messageText sentAt repliedAt replies).2.1.messages =
      c.messages ++ [userMessage messageText sentAt,
        assistantMessage (.str fallbackText) repliedAt] ∧
    JsObj.get (userMessage messageText sentAt) "content" = .str messageText ∧
    JsObj.get (assistantMessage (.str fallbackText) repliedAt) "role" = .str "assistant" ∧
    JsObj.get (assistantMessage (.str fallbackText) repliedAt) "content" = .str fallbackText ∧
    (sendMessage w c messageText sentAt repliedAt replies).2.1.isLoading = false ∧
    (sendMessage w c messageText sentAt repliedAt replies).2.2.2 = .returned := by
  have hne : ¬ trim messageText = "" := by
    rw [trim_eq_empty_iff, htext]
    decide
  have ho : (authAxiosRun w (chatConfig messageText c.currentSession) replies).2.outcome? =
      some (.rejected error) := by
    rw [hfail]
    rfl
  refine ⟨?_, rfl, rfl, rfl, ?_, ?_⟩
  · simp [sendMessage, hne, ho, sendMessageSettled, sendMessageCatch, sendMessageStart]
  · simp [sendMessage, hne, ho, sendMessageSettled, sendMessageCatch]
  · simp only [sendMessage, hne, if_false, ho]

/-- A witness of C18: the chat request gets a 500. -/
theorem sendMessage_failure_appends_fallback_witness :
    (sendMessage signedIn openChat "ابو" sentClock repliedClock
        [some { status := 500, data := none }]).2.1.messages =
      openChat.messages ++ [userMessage "ابو" sentClock,
        assistantMessage (.str fallbackText) repliedClock] :=
  (sendMessage_failure_appends_fallback signedIn openChat "ابو" sentClock repliedClock
    [some { status := 500, data := none }]
    (.axios (requestInterceptor signedIn (chatConfig "ابو" openChat.currentSession))
      (some { status := 500, data := none }))
    (by decide) (by decide)).1

/-- The session installed for a created session has the identifier it was given. -/
theorem sessionIdOf_createdSession (sessionId uploadedFile : JsVal) :
    sessionIdOf (some (createdSession sessionId uploadedFile)) = sessionId := by
  simp [sessionIdOf, createdSession, JsObj.get, List.lookup]

/-- The run of `sendMessage` on its own when the chat request is fulfilled with a body that
carries a (truthy) `session_id`, however many replies that took: with no identifier on the
active session the session is installed and the request of `fetchSessions()` leaves; with one,
the active session, the session list and the browser state are left as they were. -/
theorem sendMessage_run_assigns_session (w : World) (c : ChatState) (messageText : String)
    (sentAt repliedAt : Clock) (replies : List Reply) (response : Response) (sent : Config)
    (data : JsObj)
    (htext : messageText.toList.all isJsWhitespace = false)
    (hok : (authAxiosRun w (chatConfig messageText c.currentSession) replies).2 =
      .settled (.fulfilled response sent))
    (hdata : response.data = some data)
    (hsid : (JsObj.get data "session_id").truthy = true) :
    ((sessionIdOf c.currentSession).truthy = false →
      (sendMessage w c messageText sentAt repliedAt replies).2.1.currentSession =
        some (createdSession (JsObj.get data "session_id") c.uploadedFile) ∧
      sessionIdOf (sendMessage w c messageText sentAt repliedAt replies).2.1.currentSession =
        JsObj.get data "session_id" ∧
      (sendMessage w c messageText sentAt repliedAt replies).1.trace =
        (authAxiosRun w (chatConfig messageText c.currentSession) replies).1.trace ++
          [firstCall (authAxiosRun w (chatConfig messageText c.currentSession) replies).1
            fetchSessionsConfig] ∧
      (sendMessage w c messageText sentAt repliedAt replies).2.2.1 =
        some (.awaitingResponse (requestInterceptor
          (authAxiosRun w (chatConfig messageText c.currentSession) replies).1
          fetchSessionsConfig)) ∧
      (sendMessage w c messageText sentAt repliedAt replies).2.1.isSessionsLoading = true) ∧
    ((sessionIdOf c.currentSession).truthy = true →
      (sendMessage w c messageText sentAt repliedAt replies).2.1.currentSession =
        c.currentSession ∧
      (sendMessage w c messageText sentAt repliedAt replies).1 =
        (authAxiosRun w (chatConfig messageText c.currentSession) replies).1 ∧
      (sendMessage w c messageText sentAt repliedAt replies).2.2.1 = none ∧
      (sendMessage w c messageText sentAt repliedAt replies).2.1.sessions = c.sessions) := by
  have hne : ¬ trim messageText = "" := by
    rw [trim_eq_empty_iff, htext]
    decide
  have ho : (authAxiosRun w (chatConfig messageText c.currentSession) replies).2.outcome? =
      some (.fulfilled response sent) := by
    rw [hok]
    rfl
  constructor
  · intro hnone
    simp only [sendMessage, hne, if_false, ho, sendMessageSettled, hdata, hsid, hnone,
      Bool.not_false, Bool.and_self, if_true]
    exact ⟨rfl, sessionIdOf_createdSession _ _, rfl, rfl, rfl⟩
  · intro hsome
    simp only [sendMessage, hne, if_false, ho, sendMessageSettled, hdata, hsid, hsome,
      Bool.not_true, Bool.and_false]
    exact ⟨rfl, rfl, rfl, rfl⟩

/-- A first reply with a 2xx status settles the call at once and leaves the browser state
alone. -/
theorem deliver_success (w : World) (config : Config) (response : Response)
    (hok : validateStatus response.status = true) :
    Task.deliver w (.awaitingResponse config) (some response) =
      (w, .settled (.fulfilled response config)) := by
  simp [Task.deliver, settle, hok]

/-- A handler whose request is on the wire runs on when a 2xx reply arrives, on the state
the page has in that turn. -/
theorem deliverTo_success (p : Page) (i : Nat) (pending : Pending) (config : Config)
    (response : Response) (now : Clock)
    (hop : p.ops.get? i = some { pending := pending, task := .awaitingResponse config })
    (hok : validateStatus response.status = true) :
    p.deliverTo i (some response) now =
      { world := (pending.resume p.world p.chat now (.fulfilled response config)).1,
        chat := (pending.resume p.world p.chat now (.fulfilled response config)).2.1,
        ops := p.ops.set i { pending := pending, task := .settled (.fulfilled response config) } ++
          (pending.resume p.world p.chat now (.fulfilled response config)).2.2 } := by
  simp only [Page.deliverTo, hop, deliver_success _ _ _ hok]

/-- C20 as stated fails: a message is sent in the session `s1` and, while the chat request
is in flight, "New Chat" is clicked; when the answer arrives it is appended to the log of the
new chat.  Likewise a `loadSession` of `s2` is in flight when "New Chat" is clicked; when the
details arrive they replace the active session and the upload binding of the new chat. -/
theorem stale_results_discarded_counterexample :
    (((({ world := signedIn, chat := openChat } : Page).sendMessage "ابو"
        sentClock).handleNewChat).deliverTo 0 (some answerReply) repliedClock).chat.messages =
      [assistantMessage (.str "جواب") repliedClock] ∧
    (((({ world := signedIn, chat := openChat } : Page).sendMessage "ابو"
        sentClock).handleNewChat).deliverTo 0 (some answerReply) repliedClock).chat.messages ≠
      ((({ world := signedIn, chat := openChat } : Page).sendMessage "ابو"
        sentClock).handleNewChat).chat.messages ∧
    (((({ world := signedIn, chat := openChat } : Page).loadSession
        (.str "s2")).handleNewChat).deliverTo 0 (some sessionReply)
        repliedClock).chat.currentSession ≠
      ((({ world := signedIn, chat := openChat } : Page).loadSession
        (.str "s2")).handleNewChat).chat.currentSession ∧
    (((({ world := signedIn, chat := openChat } : Page).loadSession
        (.str "s2")).handleNewChat).deliverTo 0 (some sessionReply)
        repliedClock).chat.uploadedFile = .str "other" := by
  decide

/-- C20, amended: the handlers keep no tag of the session they were started in, so a result
that arrives is applied to the state the page has by then, whatever the active session has
become meanwhile.  The answer to a chat request is appended, as an assistant message, to
the log as it is on arrival; the details a `loadSession` fetched replace the active session
and the upload binding; the messages it fetched replace the log. -/
theorem in_flight_results_are_applied (p : Page) (i : Nat) (config : Config)
    (response : Response) (now : Clock) (hok : validateStatus response.status = true) :
    (∀ (currentSession : Option JsObj) (uploadedFile : JsVal) (data : JsObj),
      p.ops.get? i = some { pending := .sendMessage currentSession uploadedFile,
                            task := .awaitingResponse config } →
      response.data = some data →
      (p.deliverTo i (some response) now).chat.messages =
        p.chat.messages ++ [assistantMessage (JsObj.get data "answer") now]) ∧
    (∀ (sessionId : JsVal) (data : JsObj),
      p.ops.get? i = some { pending := .loadSession sessionId,
                            task := .awaitingResponse config } →
      response.data = some data →
      (p.deliverTo i (some response) now).chat.currentSession = some (loadedSession data) ∧
      (p.deliverTo i (some response) now).chat.uploadedFile =
        JsObj.get data "collection_name") ∧
    (∀ (sessionId : JsVal),
      p.ops.get? i = some { pending := .loadSessionMessages sessionId,
                            task := .awaitingResponse config } →
      (p.deliverTo i (some response) now).chat.messages = response.rows.getD []) := by
  refine ⟨?_, ?_, ?_⟩
  · intro currentSession uploadedFile data hop hdata
    rw [deliverTo_success p i _ config response now hop hok]
    simp only [Pending.resume, sendMessageSettled, hdata]
    split <;> rfl
  · intro sessionId data hop hdata
    rw [deliverTo_success p i _ config response now hop hok]
    simp [Pending.resume, loadSessionSettled, hdata]
  · intro sessionId hop
    rw [deliverTo_success p i _ config response now hop hok]
    rfl

/-- A witness of the amended C20: the answer to a message sent in `s1` arrives after "New
Chat" was clicked. -/
theorem in_flight_results_are_applied_witness :
    (((({ world := signedIn, chat := openChat } : Page).sendMessage "ابو"
        sentClock).handleNewChat).deliverTo 0 (some answerReply) repliedClock).chat.messages =
      ((({ world := signedIn, chat := openChat } : Page).sendMessage "ابو"
        sentClock).handleNewChat).chat.messages ++
        [assistantMessage (JsObj.get [("answer", .str "جواب"), ("session_id", .str "abc")]
          "answer") repliedClock] :=
  (in_flight_results_are_applied
    ((({ world := signedIn, chat := openChat } : Page).sendMessage "ابو"
      sentClock).handleNewChat) 0
    (requestInterceptor signedIn (chatConfig "ابو" openChat.currentSession))
    answerReply repliedClock (by decide)).1 openChat.currentSession openChat.uploadedFile
    [("answer", .str "جواب"), ("session_id", .str "abc")] (by decide) rfl

/-! ## The upload gate -/

/-- C21 as stated fails: in a state reached by loading a session that has a document bound
and no messages and then picking a file in the upload card, an upload is in flight, and
submitting the input form dispatches a chat request. -/
theorem upload_gate_blocks_sending_counterexample :
    uploadingPage.chat.isUploading = true ∧
    chatCalls uploadingPage.world.trace = 0 ∧
    chatCalls (uploadingPage.submitForm repliedClock).world.trace = 1 := by
  decide

/-- The suggestion cards are not gated by the document: in a state reached by uploading a
document and then loading a session whose details cannot be fetched, no document is bound,
the input form is disabled, and a click on a suggestion card dispatches a chat request. -/
theorem suggestion_card_sends_without_document :
    unboundPage.chat.uploadedFile = .null ∧
    unboundPage.submitForm repliedClock = unboundPage ∧
    chatCalls unboundPage.world.trace = 0 ∧
    chatCalls (unboundPage.clickSuggestion 0 repliedClock).world.trace = 1 := by
  decide

/-- C21, amended: in every state of the chat page in which no document is bound to the
active session (`uploadedFile` is falsy: null, absent, empty), the text input and the Send
button are disabled, so the input form can neither be typed into nor submitted, and
submitting it dispatches nothing. -/
theorem form_is_blocked_without_document (p : Page) (text : String) (now : Clock)
    (h : p.chat.uploadedFile.truthy = false) :
    inputDisabled p.chat = true ∧ sendDisabled p.chat = true ∧
    p.typeInput text = p ∧ p.submitForm now = p := by
  have hi : inputDisabled p.chat = true := by simp [inputDisabled, h]
  have hs : sendDisabled p.chat = true := by simp [sendDisabled, h]
  refine ⟨hi, hs, ?_, ?_⟩
  · simp [Page.typeInput, hi]
  · simp [Page.submitForm, hi, hs]

/-- A witness of the amended C21: the page right after "New Chat". -/
theorem form_is_blocked_without_document_witness :
    (({ world := signedIn, chat := openChat } : Page).handleNewChat).submitForm repliedClock =
      ({ world := signedIn, chat := openChat } : Page).handleNewChat :=
  (form_is_blocked_without_document
    (({ world := signedIn, chat := openChat } : Page).handleNewChat) "سوال" repliedClock
    (by decide)).2.2.2

/-! ## Loading and deleting sessions -/

/-- The run of `loadSession` when the details are fetched. -/
theorem loadSession_fetched (w : World) (c : ChatState) (sessionId : JsVal) (now : Clock)
    (detailReplies messagesReplies : List Reply) (response : Response) (sent : Config)
    (data : JsObj)
    (hok : (authAxiosRun w (sessionConfig sessionId) detailReplies).2 =
      .settled (.fulfilled response sent))
    (hdata : response.data = some data) :
    loadSession w c sessionId now detailReplies messagesReplies =
      match (authAxiosRun (authAxiosRun w (sessionConfig sessionId) detailReplies).1
          (messagesConfig sessionId) messagesReplies).2.outcome? with
      | none =>
        ((authAxiosRun (authAxiosRun w (sessionConfig sessionId) detailReplies).1
            (messagesConfig sessionId) messagesReplies).1,
          { c with isSessionLoading := true, currentSession := some (loadedSession data),
                   uploadedFile := JsObj.get data "collection_name" }, .pending)
      | some outcome2 =>
        ((authAxiosRun (authAxiosRun w (sessionConfig sessionId) detailReplies).1
            (messagesConfig sessionId) messagesReplies).1,
          loadSessionMessagesSettled
            { c with isSessionLoading := true, currentSession := some (loadedSession data),
                     uploadedFile := JsObj.get data "collection_name" } outcome2,
          .returned) := by
  have ho : (authAxiosRun w (sessionConfig sessionId) detailReplies).2.outcome? =
      some (.fulfilled response sent) := by
    rw [hok]
    rfl
  simp only [loadSession, ho, loadSessionSettled, hdata]
  rfl

/-- The run of `loadSession` when the details cannot be fetched: the request is rejected, or
it is fulfilled with an empty body, reading which raises. -/
theorem loadSession_notFetched (w : World) (c : ChatState) (sessionId : JsVal) (now : Clock)
    (detailReplies messagesReplies : List Reply) (outcome : Outcome)
    (hsettled : (authAxiosRun w (sessionConfig sessionId) detailReplies).2 = .settled outcome)
    (hfail : (∃ error, outcome = .rejected error) ∨
      (∃ response sent, outcome = .fulfilled response sent ∧ response.data = none)) :
    loadSession w c sessionId now detailReplies messagesReplies =
      ((authAxiosRun w (sessionConfig sessionId) detailReplies).1,
        loadSessionCatch { c with isSessionLoading := true } sessionId now, .returned) := by
  have ho : (authAxiosRun w (sessionConfig sessionId) detailReplies).2.outcome? =
      some outcome := by
    rw [hsettled]
    rfl
  rcases hfail with ⟨error, rfl⟩ | ⟨response, sent, rfl, hdata⟩
  · simp only [loadSession, ho, loadSessionSettled]
  · simp only [loadSession, ho, loadSessionSettled, hdata]

/-- The messages step of `loadSession` leaves the active session and the upload binding
alone. -/
theorem loadSessionMessagesSettled_keeps (c : ChatState) (outcome : Outcome) :
    (loadSessionMessagesSettled c outcome).currentSession = c.currentSession ∧
    (loadSessionMessagesSettled c outcome).uploadedFile = c.uploadedFile ∧
    (loadSessionMessagesSettled c outcome).isSessionLoading = false := by
  cases outcome <;> exact ⟨rfl, rfl, rfl⟩

/-- Switching the session sets the upload binding: whatever it was before, after
`loadSession` has fetched the details `uploadedFile` is the `collection_name` of the fetched
session, while the messages are awaited and after, and when that is absent or null the text
input and the Send button are disabled; after `loadSession` failed to fetch the details, and
after `handleNewChat`, `uploadedFile` is null. -/
theorem switching_session_resets_upload_binding (w : World) (c : ChatState) (sessionId : JsVal)
    (now : Clock) (detailReplies messagesReplies : List Reply) :
    (∀ (response : Response) (sent : Config) (data : JsObj),
      (authAxiosRun w (sessionConfig sessionId) detailReplies).2 =
        .settled (.fulfilled response sent) →
      response.data = some data →
      (loadSession w c sessionId now detailReplies messagesReplies).2.1.uploadedFile =
        JsObj.get data "collection_name" ∧
      ((JsObj.get data "collection_name").truthy = false →
        inputDisabled (loadSession w c sessionId now detailReplies messagesReplies).2.1 = true ∧
        sendDisabled (loadSession w c sessionId now detailReplies messagesReplies).2.1 =
          true)) ∧
    (∀ (error : Failure),
      (authAxiosRun w (sessionConfig sessionId) detailReplies).2 =
        .settled (.rejected error) →
      (loadSession w c sessionId now detailReplies messagesReplies).2.1.uploadedFile = .null) ∧
    (handleNewChat c).uploadedFile = .null := by
  refine ⟨?_, ?_, rfl⟩
  · intro response sent data hok hdata
    have hup : (loadSession w c sessionId now detailReplies messagesReplies).2.1.uploadedFile =
        JsObj.get data "collection_name" := by
      rw [loadSession_fetched w c sessionId now detailReplies messagesReplies response sent data
        hok hdata]
      split
      · rfl
      · exact (loadSessionMessagesSettled_keeps _ _).2.1
    refine ⟨hup, ?_⟩
    intro habsent
    simp [inputDisabled, sendDisabled, hup, habsent]
  · intro error hfail
    rw [loadSession_notFetched w c sessionId now detailReplies messagesReplies _ hfail
      (Or.inl ⟨error, rfl⟩)]
    rfl

/-- An instance: from the session `s1`, bound to `story`, to the session `s2`, bound to
`other`. -/
theorem switching_session_resets_upload_binding_witness :
    (loadSession signedIn openChat (.str "s2") sentClock [some sessionReply]
        [some noMessagesReply]).2.1.uploadedFile =
      JsObj.get [("session_id", .str "s2"), ("title", .str "Second"),
        ("created_at", .str "2024-12-31T09:00:00.000Z"), ("collection_name", .str "other")]
        "collection_name" :=
  ((switching_session_resets_upload_binding signedIn openChat (.str "s2") sentClock
    [some sessionReply] [some noMessagesReply]).1 sessionReply
    (requestInterceptor signedIn (sessionConfig (.str "s2")))
    [("session_id", .str "s2"), ("title", .str "Second"),
      ("created_at", .str "2024-12-31T09:00:00.000Z"), ("collection_name", .str "other")]
    (by decide) rfl).1

/-- C25: when `loadSession(S)` cannot fetch the details of the session, the request being
rejected or answered with an empty body, it returns all the same, with an active session
whose `_id` is `S`, whose name is `Chat ` followed by the current local time and whose
`created_at` is the current time, with an empty log, `uploadedFile` null and the
session-loading flag false. -/
theorem loadSession_failure_gives_placeholder (w : World) (c : ChatState) (sessionId : JsVal)
    (now : Clock) (detailReplies messagesReplies : List Reply) (outcome : Outcome)
    (hsettled : (authAxiosRun w (sessionConfig sessionId) detailReplies).2 = .settled outcome)
    (hfail : (∃ error, outcome = .rejected error) ∨
      (∃ response sent, outcome = .fulfilled response sent ∧ response.data = none)) :
    (loadSession w c sessionId now detailReplies messagesReplies).2.2 = .returned ∧
    (loadSession w c sessionId now detailReplies messagesReplies).2.1.currentSession =
      some (placeholderSession sessionId now) ∧
    sessionIdOf (some (placeholderSession sessionId now)) = sessionId ∧
    JsObj.get (placeholderSession sessionId now) "name" = .str ("Chat " ++ now.locale) ∧
    JsObj.get (placeholderSession sessionId now) "created_at" = .str now.iso ∧
    (loadSession w c sessionId now detailReplies messagesReplies).2.1.messages = [] ∧
    (loadSession w c sessionId now detailReplies messagesReplies).2.1.uploadedFile = .null ∧
    (loadSession w c sessionId now detailReplies messagesReplies).2.1.isSessionLoading =
      false := by
  rw [loadSession_notFetched w c sessionId now detailReplies messagesReplies outcome hsettled
    hfail]
  refine ⟨rfl, rfl, ?_, ?_, ?_, rfl, rfl, rfl⟩
  · simp [sessionIdOf, placeholderSession, JsObj.get, List.lookup]
  · simp [placeholderSession, JsObj.get, List.lookup]
  · simp [placeholderSession, JsObj.get, List.lookup]

/-- A witness of C25: the session is not found. -/
theorem loadSession_failure_gives_placeholder_witness :
    (loadSession signedIn openChat (.str "s9") sentClock [some { status := 404, data := none }]
        []).2.1.currentSession = some (placeholderSession (.str "s9") sentClock) :=
  (loadSession_failure_gives_placeholder signedIn openChat (.str "s9") sentClock
    [some { status := 404, data := none }] []
    (.rejected (.axios (requestInterceptor signedIn (sessionConfig (.str "s9")))
      (some { status := 404, data := none })))
    (by decide) (Or.inl ⟨_, rfl⟩)).2.1

/-- C26: when `loadSession(S)` fetches the details and the request for the messages is then
rejected, it returns with an empty log, the active session made of the `session_id`, `title`
and `created_at` of the fetched details, `uploadedFile` their `collection_name`, and the
session-loading flag false. -/
theorem loadSession_history_failure_is_isolated (w : World) (c : ChatState)
    (sessionId : JsVal) (now : Clock) (detailReplies messagesReplies : List Reply)
    (response : Response) (sent : Config) (data : JsObj) (error : Failure)
    (hok : (authAxiosRun w (sessionConfig sessionId) detailReplies).2 =
      .settled (.fulfilled response sent))
    (hdata : response.data = some data)
    (hfail : (authAxiosRun (authAxiosRun w (sessionConfig sessionId) detailReplies).1
      (messagesConfig sessionId) messagesReplies).2 = .settled (.rejected error)) :
    (loadSession w c sessionId now detailReplies messagesReplies).2.2 = .returned ∧
    (loadSession w c sessionId now detailReplies messagesReplies).2.1.messages = [] ∧
    (loadSession w c sessionId now detailReplies messagesReplies).2.1.currentSession =
      some (loadedSession data) ∧
    JsObj.get (loadedSession data) "_id" = JsObj.get data "session_id" ∧
    JsObj.get (loadedSession data) "name" = JsObj.get data "title" ∧
    JsObj.get (loadedSession data) "created_at" = JsObj.get data "created_at" ∧
    (loadSession w c sessionId now detailReplies messagesReplies).2.1.uploadedFile =
      JsObj.get data "collection_name" ∧
    (loadSession w c sessionId now detailReplies messagesReplies).2.1.isSessionLoading =
      false := by
  have ho : (authAxiosRun (authAxiosRun w (sessionConfig sessionId) detailReplies).1
      (messagesConfig sessionId) messagesReplies).2.outcome? = some (.rejected error) := by
    rw [hfail]
    rfl
  rw [loadSession_fetched w c sessionId now detailReplies messagesReplies response sent data
    hok hdata]
  simp [ho, loadSessionMessagesSettled, loadedSession, JsObj.get, List.lookup]

/-- A witness of C26: the details of `s2` arrive, the request for its messages gets a 500. -/
theorem loadSession_history_failure_is_isolated_witness :
    (loadSession signedIn openChat (.str "s2") sentClock [some sessionReply]
        [some { status := 500, data := none }]).2.1.messages = [] ∧
    (loadSession signedIn openChat (.str "s2") sentClock [some sessionReply]
        [some { status := 500, data := none }]).2.1.uploadedFile =
      JsObj.get [("session_id", .str "s2"), ("title", .str "Second"),
        ("created_at", .str "2024-12-31T09:00:00.000Z"), ("collection_name", .str "other")]
        "collection_name" :=
  have h := loadSession_history_failure_is_isolated signedIn openChat (.str "s2") sentClock
    [some sessionReply] [some { status := 500, data := none }] sessionReply
    (requestInterceptor signedIn (sessionConfig (.str "s2")))
    [("session_id", .str "s2"), ("title", .str "Second"),
      ("created_at", .str "2024-12-31T09:00:00.000Z"), ("collection_name", .str "other")]
    (.axios (requestInterceptor signedIn (messagesConfig (.str "s2")))
      (some { status := 500, data := none }))
    (by decide) rfl (by decide)
  ⟨h.2.1, h.2.2.2.2.2.2.1⟩

/-- C23: once `deleteSession(S)` has completed, whatever the outcome of the DELETE request,
the session list is the list as it was at the call without the entries whose `session_id` is
`S`: no entry left has that `session_id`, every other entry of the former list is still
there, and the order is the former one. -/
theorem deleteSession_removes_from_list (w : World) (c : ChatState) (sessionId : JsVal)
    (replies : List Reply) (outcome : Outcome)
    (hsettled : (authAxiosRun w (deleteConfig sessionId) replies).2 = .settled outcome) :
    (deleteSession w c sessionId replies).2.2 = .returned ∧
    (deleteSession w c sessionId replies).2.1.sessions =
      c.sessions.filter (fun s => decide (JsObj.get s "session_id" ≠ sessionId)) ∧
    (∀ s ∈ (deleteSession w c sessionId replies).2.1.sessions,
      JsObj.get s "session_id" ≠ sessionId) ∧
    (∀ s ∈ c.sessions, JsObj.get s "session_id" ≠ sessionId →
      s ∈ (deleteSession w c sessionId replies).2.1.sessions) ∧
    List.Sublist (deleteSession w c sessionId replies).2.1.sessions c.sessions := by
  have ho : (authAxiosRun w (deleteConfig sessionId) replies).2.outcome? = some outcome := by
    rw [hsettled]
    rfl
  have hs : (deleteSession w c sessionId replies).2.1.sessions =
      c.sessions.filter (fun s => decide (JsObj.get s "session_id" ≠ sessionId)) := by
    simp only [deleteSession, ho, deleteSessionSettled]
    split <;> rfl
  refine ⟨by simp only [deleteSession, ho], hs, ?_, ?_, ?_⟩
  · intro s hmem
    rw [hs, List.mem_filter] at hmem
    exact of_decide_eq_true hmem.2
  · intro s hmem hne
    rw [hs, List.mem_filter]
    exact ⟨hmem, decide_eq_true hne⟩
  · rw [hs]
    exact List.filter_sublist _

/-- A witness of C23: the DELETE request for `s1` gets no response. -/
theorem deleteSession_removes_from_list_witness :
    (deleteSession signedIn listedChat (.str "s1") [none]).2.1.sessions =
      listedChat.sessions.filter (fun s => decide (JsObj.get s "session_id" ≠ .str "s1")) :=
  (deleteSession_removes_from_list signedIn listedChat (.str "s1") [none]
    (.rejected (.axios (requestInterceptor signedIn (deleteConfig (.str "s1"))) none))
    (by decide)).2.1

/-- C24 as stated fails: `deleteSession("s1")` is called, the DELETE request is on the wire
and unanswered, and the session list still is the list with `s1` in it. -/
theorem deleteSession_is_immediate_counterexample :
    (deleteSession signedIn listedChat (.str "s1") []).2.2 = .pending ∧
    (deleteSession signedIn listedChat (.str "s1") []).1.trace =
      [firstCall signedIn (deleteConfig (.str "s1"))] ∧
    (deleteSession signedIn listedChat (.str "s1") []).2.1.sessions = sessionList ∧
    [("session_id", JsVal.str "s1"), ("title", JsVal.str "First")] ∈
      (deleteSession signedIn listedChat (.str "s1") []).2.1.sessions := by
  decide

/-- C24, amended: `deleteSession(S)` awaits the DELETE request before it touches the state.
The turn of the call leaves the React state as it was; as long as the request is not
settled the state stays so; and once it is settled, fulfilled or rejected, the entries of
`S` are removed. -/
theorem deleteSession_waits_for_backend (w : World) (c : ChatState) (sessionId : JsVal)
    (replies : List Reply) :
    (∀ p : Page, (p.deleteSession sessionId).chat = p.chat) ∧
    ((authAxiosRun w (deleteConfig sessionId) replies).2.outcome? = none →
      (deleteSession w c sessionId replies).2.1 = c ∧
      (deleteSession w c sessionId replies).2.2 = .pending) ∧
    (∀ outcome, (authAxiosRun w (deleteConfig sessionId) replies).2 = .settled outcome →
      (deleteSession w c sessionId replies).2.1.sessions =
        c.sessions.filter (fun s => decide (JsObj.get s "session_id" ≠ sessionId))) := by
  refine ⟨fun _ => rfl, ?_, ?_⟩
  · intro hnone
    simp [deleteSession, hnone]
  · intro outcome hsettled
    have ho : (authAxiosRun w (deleteConfig sessionId) replies).2.outcome? = some outcome := by
      rw [hsettled]
      rfl
    simp only [deleteSession, ho, deleteSessionSettled]
    split <;> rfl

/-- A witness of the amended C24: the DELETE request gets a 401 and the refresh call made
for it is unanswered. -/
theorem deleteSession_waits_for_backend_witness :
    (deleteSession signedIn listedChat (.str "s1") [some unauthorized]).2.1 = listedChat ∧
    (deleteSession signedIn listedChat (.str "s1") [some unauthorized]).2.2 = .pending :=
  (deleteSession_waits_for_backend signedIn listedChat (.str "s1") [some unauthorized]).2.1
    (by decide)

/-- C27: when the callback URL has no `access_token` parameter, or an empty one,
`GoogleRedirectHandler` navigates to `/login` and leaves the storage as it was; otherwise it
stores the value of the parameter under `accessToken`, stores `true` under `justLoggedIn`,
leaves the rest of the browser state alone, and navigates to `/chat`. -/
theorem googleRedirect_stores_or_sends_to_login (w : World) (params : List (String × String)) :
    (params.lookup "access_token" = none ∨ params.lookup "access_token" = some "" →
      GoogleRedirectHandler w params = (w, "/login")) ∧
    (∀ v : String, params.lookup "access_token" = some v → v ≠ "" →
      GoogleRedirectHandler w params =
        ({ w with accessToken := some v, justLoggedIn := some "true" }, "/chat")) := by
  constructor
  · intro h
    rcases h with h | h <;> simp [GoogleRedirectHandler, h, tokenTruthy]
  · intro v hv hne
    simp [GoogleRedirectHandler, hv, tokenTruthy, hne]

/-- A witness of C27: a callback URL without the parameter, and one with it. -/
theorem googleRedirect_stores_or_sends_to_login_witness :
    GoogleRedirectHandler signedOut [("state", "xyz")] = (signedOut, "/login") ∧
    GoogleRedirectHandler signedOut [("access_token", "oauth")] =
      ({ signedOut with accessToken := some "oauth", justLoggedIn := some "true" }, "/chat") :=
  ⟨(googleRedirect_stores_or_sends_to_login signedOut [("state", "xyz")]).1 (Or.inl rfl),
    (googleRedirect_stores_or_sends_to_login signedOut [("access_token", "oauth")]).2 "oauth"
      rfl (by decide)⟩

/-! ## The forms of the sign-in pages -/

theorem char_le_iff (a b : Char) : a ≤ b ↔ a.toNat ≤ b.toNat := by
  rfl

theorem inAlphabet_not_lineTerminator (c : Char) (h : inAlphabet c = true) :
    isLineTerminator c = false := by
  simp only [inAlphabet, isUpper, isLower, isDigit, isSpecial, Bool.or_eq_true,
    Bool.and_eq_true, decide_eq_true_eq, char_le_iff] at h
  simp only [isLineTerminator, Bool.or_eq_false_iff, decide_eq_false_iff_not]
  have e1 : ('A' : Char).toNat = 65 := rfl
  have e2 : ('Z' : Char).toNat = 90 := rfl
  have e3 : ('a' : Char).toNat = 97 := rfl
  have e4 : ('z' : Char).toNat = 122 := rfl
  have e5 : ('0' : Char).toNat = 48 := rfl
  have e6 : ('9' : Char).toNat = 57 := rfl
  rw [e1, e2, e3, e4, e5, e6] at h
  rcases h with ((h | h) | h) | h
  · omega
  · omega
  · omega
  · rcases h with (((((h | h) | h) | h) | h) | h) | h <;> subst h <;> decide

theorem lookahead_eq_any (cls : Char → Bool) (l : List Char)
    (h : l.all inAlphabet = true) : lookahead cls l = l.any cls := by
  induction l with
  | nil => rfl
  | cons c rest ih =>
    simp only [List.all_cons, Bool.and_eq_true] at h
    simp only [lookahead, List.any_cons, inAlphabet_not_lineTerminator c h.1, ih h.2,
      Bool.not_false, Bool.true_and]


/-- C28, the failing cases: `ForgotPassword` and `ResetPassword` import the default export
of api/authAxios.js, so their calls go through the response interceptor.  A 401 to the
forgot-password call whose refresh call gets no response makes one refresh call, removes the
stored credential and reloads the page; a 401 to the reset-password call whose refresh call
succeeds makes one refresh call and replaces the stored credential.  The login call, made
through `axiosInstance`, makes no refresh call on a 401. -/
theorem password_calls_go_through_refresh :
    refreshCalls (handleForgotPassword signedIn { email := "arfa@example.com" }
        [some unauthorized, none]).1.trace = 1 ∧
    (handleForgotPassword signedIn { email := "arfa@example.com" }
        [some unauthorized, none]).1.accessToken = none ∧
    (handleForgotPassword signedIn { email := "arfa@example.com" }
        [some unauthorized, none]).1.reloads = 1 ∧
    refreshCalls (handleReset signedIn
        { newPassword := "Passw0rd!", confirmPassword := "Passw0rd!" } (some "reset-token")
        [some unauthorized, some refreshedReply, some okReply]).1.trace = 1 ∧
    (handleReset signedIn
        { newPassword := "Passw0rd!", confirmPassword := "Passw0rd!" } (some "reset-token")
        [some unauthorized, some refreshedReply, some okReply]).1.accessToken = some "fresh" ∧
    refreshCalls (handleLogin signedIn { user := none, isLoading := false }
        { identifier := "arfa", password := "Passw0rd!" }
        [some { status := 401, data := none }]).1.trace = 0 := by
  decide

/-- C29, the failing case: the login request is answered with a 422 whose `detail` is a
list of validation errors.  The `catch` block of `handleLogin` calls `toLowerCase` on it,
which raises: `handleLogin` ends by an exception and no error message is set. -/
theorem handleLogin_throws_on_list_detail :
    (handleLogin signedOut { user := none, isLoading := false }
        { identifier := "arfa", password := "Passw0rd!" }
        [some { status := 422, data := some [("detail", .ref "[object Object]")] }]).2.2.2 =
      .threw ∧
    (handleLogin signedOut { user := none, isLoading := false }
        { identifier := "arfa", password := "Passw0rd!" }
        [some { status := 422, data := some [("detail", .ref "[object Object]")] }]).2.2.1.error =
      "" := by
  decide

/-- C30 as stated fails: `Passw0rd!#` is ten characters long and has an uppercase letter, a
number and a special character, and `validatePassword` rejects it, the character `#` not
being one the pattern admits. -/
theorem validatePassword_stated_rule_counterexample :
    meetsStatedRule "Passw0rd!#" = true ∧ validatePassword "Passw0rd!#" = false := by
  decide

/-- C30, amended: `validatePassword(p)` is true if and only if `p` is at least 8 characters
long, is made only of the letters `A-Z` and `a-z`, the digits `0-9` and the characters
`@$!%*?&`, and has among them an uppercase letter, a digit and one of `@$!%*?&`. -/
theorem validatePassword_iff (p : String) :
    validatePassword p = true ↔
      8 ≤ p.length ∧ (∀ c ∈ p.toList, inAlphabet c = true) ∧
      (∃ c ∈ p.toList, isUpper c = true) ∧ (∃ c ∈ p.toList, isDigit c = true) ∧
      (∃ c ∈ p.toList, isSpecial c = true) := by
  have hlen : p.length = p.toList.length := rfl
  constructor
  · intro h
    simp only [validatePassword, Bool.and_eq_true, decide_eq_true_eq] at h
    obtain ⟨⟨⟨hu, hd⟩, hs⟩, hall, h8⟩ := h
    rw [lookahead_eq_any _ _ hall] at hu hd hs
    rw [List.any_eq_true] at hu hd hs
    rw [List.all_eq_true] at hall
    exact ⟨by rw [hlen]; exact h8, hall, hu, hd, hs⟩
  · intro h
    obtain ⟨h8, hall, hu, hd, hs⟩ := h
    have hall2 : p.toList.all inAlphabet = true := by
      rw [List.all_eq_true]
      exact hall
    simp only [validatePassword, Bool.and_eq_true, decide_eq_true_eq,
      lookahead_eq_any _ _ hall2, List.any_eq_true]
    exact ⟨⟨⟨hu, hd⟩, hs⟩, hall2, by rw [← hlen]; exact h8⟩

/-! ## The session list after a created session -/

/-- The handler started last is the last in flight. -/
theorem get?_last (ops : List Op) (op : Op) : (ops ++ [op]).get? ops.length = some op := by
  simp

/-- The turn of `sendMessage` for a text that is not blank. -/
theorem Page.sendMessage_eq (p : Page) (messageText : String) (sentAt : Clock)
    (htext : messageText.toList.all isJsWhitespace = false) :
    p.sendMessage messageText sentAt =
      { world := { p.world with trace := p.world.trace ++
          [firstCall p.world (chatConfig messageText p.chat.currentSession)] },
        chat := sendMessageStart p.chat messageText sentAt,
        ops := p.ops ++ [({ pending := .sendMessage p.chat.currentSession p.chat.uploadedFile,
                            task := .awaitingResponse (requestInterceptor p.world
                              (chatConfig messageText p.chat.currentSession)) } : Op)] } := by
  have hne : ¬ trim messageText = "" := by
    rw [trim_eq_empty_iff, htext]
    decide
  simp [Page.sendMessage, hne, authAxios, firstCall]

/-- The page after `sendMessage` was called with no identifier on the active session and its
chat request was fulfilled with a body that carries a `session_id`: the session is
installed, and `fetchSessions` is in flight as the handler started last. -/
theorem sendMessage_created (p : Page) (messageText : String) (sentAt repliedAt : Clock)
    (response : Response) (data : JsObj)
    (htext : messageText.toList.all isJsWhitespace = false)
    (hok : validateStatus response.status = true) (hdata : response.data = some data)
    (hsid : (JsObj.get data "session_id").truthy = true)
    (hnone : (sessionIdOf p.chat.currentSession).truthy = false) :
    ∃ spent : List Op, spent.length = p.ops.length + 1 ∧
      (p.sendMessage messageText sentAt).deliverTo p.ops.length (some response) repliedAt =
        { world := { p.world with trace := p.world.trace ++
            [firstCall p.world (chatConfig messageText p.chat.currentSession),
             firstCall p.world fetchSessionsConfig] },
          chat := { p.chat with
            messages := p.chat.messages ++ [userMessage messageText sentAt,
              assistantMessage (JsObj.get data "answer") repliedAt],
            inputMessage := "", isLoading := false, isSessionsLoading := true,
            currentSession := some
              (createdSession (JsObj.get data "session_id") p.chat.uploadedFile) },
          ops := spent ++ [({ pending := .fetchSessions,
                              task := .awaitingResponse
                                (requestInterceptor p.world fetchSessionsConfig) } : Op)] } := by
  refine ⟨(p.ops ++ [Op.mk (.sendMessage p.chat.currentSession p.chat.uploadedFile)
      (.awaitingResponse (requestInterceptor p.world
        (chatConfig messageText p.chat.currentSession)))]).set p.ops.length
      (Op.mk (.sendMessage p.chat.currentSession p.chat.uploadedFile)
        (.settled (.fulfilled response (requestInterceptor p.world
          (chatConfig messageText p.chat.currentSession))))), by simp, ?_⟩
  rw [Page.sendMessage_eq p messageText sentAt htext]
  rw [deliverTo_success _ p.ops.length _ _ response repliedAt (get?_last _ _) hok]
  simp [Pending.resume, sendMessageSettled, hdata, hsid, hnone, fetchSessionsStart, authAxios,
    sendMessageStart, firstCall, requestInterceptor_trace]

/-- A handler whose request is on the wire runs on when the request gets no response. -/
theorem deliverTo_noReply (p : Page) (i : Nat) (pending : Pending) (config : Config)
    (now : Clock)
    (hop : p.ops.get? i = some { pending := pending, task := .awaitingResponse config }) :
    p.deliverTo i none now =
      { world := (pending.resume p.world p.chat now (.rejected (.axios config none))).1,
        chat := (pending.resume p.world p.chat now (.rejected (.axios config none))).2.1,
        ops := p.ops.set i { pending := pending,
                             task := .settled (.rejected (.axios config none)) } ++
          (pending.resume p.world p.chat now (.rejected (.axios config none))).2.2 } := by
  simp only [Page.deliverTo, hop, deliver_first, settle]

/-- Replacing the handler started last. -/
theorem set_last (ops : List Op) (op op2 : Op) :
    (ops ++ [op]).set ops.length op2 = ops ++ [op2] := by
  induction ops with
  | nil => rfl
  | cons a rest ih => simp [List.set, ih]

/-- The page after `sendMessage` was called with an identifier on the active session and its
chat request was fulfilled with a body: nothing but the log and the flags of the message
changes, and no handler is started. -/
theorem sendMessage_existing (p : Page) (messageText : String) (sentAt repliedAt : Clock)
    (response : Response) (data : JsObj)
    (htext : messageText.toList.all isJsWhitespace = false)
    (hok : validateStatus response.status = true) (hdata : response.data = some data)
    (hsome : (sessionIdOf p.chat.currentSession).truthy = true) :
    (p.sendMessage messageText sentAt).deliverTo p.ops.length (some response) repliedAt =
      { world := { p.world with trace := p.world.trace ++
          [firstCall p.world (chatConfig messageText p.chat.currentSession)] },
        chat := { p.chat with
          messages := p.chat.messages ++ [userMessage messageText sentAt,
            assistantMessage (JsObj.get data "answer") repliedAt],
          inputMessage := "", isLoading := false },
        ops := p.ops ++ [Op.mk (.sendMessage p.chat.currentSession p.chat.uploadedFile)
          (.settled (.fulfilled response (requestInterceptor p.world
            (chatConfig messageText p.chat.currentSession))))] } := by
  rw [Page.sendMessage_eq p messageText sentAt htext]
  rw [deliverTo_success _ p.ops.length _ _ response repliedAt (get?_last _ _) hok]
  simp [Pending.resume, sendMessageSettled, hdata, hsome, sendMessageStart, set_last]

/-- C19: a message that is not blank is sent and the chat request is fulfilled with a body
that carries the (truthy) `session_id` `s`.  If the active session had no identifier when
`sendMessage` was called (no active session, or one whose `_id` is falsy), the active session
becomes one with `_id` equal to `s`, and the session list is fetched again: the request for
the list leaves, `fetchSessions` is in flight, and when its reply arrives the list it carries
replaces the session list and the loading flag of the list is cleared (when no reply arrives
the list stays and the flag is cleared).  If the active session had an identifier, the active
session and the session list are left as they were, no request for the list leaves and no
handler is started.  The same holds, for the turn in which the chat request settles, when it
is fulfilled only after a refresh and a resend. -/
theorem created_session_is_assigned_and_list_refetched (p : Page) (messageText : String)
    (sentAt repliedAt listedAt : Clock) (response listResponse : Response) (data : JsObj)
    (htext : messageText.toList.all isJsWhitespace = false)
    (hok : validateStatus response.status = true) (hdata : response.data = some data)
    (hsid : (JsObj.get data "session_id").truthy = true)
    (hlist : validateStatus listResponse.status = true) :
    ((sessionIdOf p.chat.currentSession).truthy = false →
      ((p.sendMessage messageText sentAt).deliverTo p.ops.length (some response)
          repliedAt).chat.currentSession =
        some (createdSession (JsObj.get data "session_id") p.chat.uploadedFile) ∧
      sessionIdOf ((p.sendMessage messageText sentAt).deliverTo p.ops.length (some response)
          repliedAt).chat.currentSession = JsObj.get data "session_id" ∧
      ((p.sendMessage messageText sentAt).deliverTo p.ops.length (some response)
          repliedAt).world.trace =
        p.world.trace ++ [firstCall p.world (chatConfig messageText p.chat.currentSession),
          firstCall p.world fetchSessionsConfig] ∧
      ((p.sendMessage messageText sentAt).deliverTo p.ops.length (some response)
          repliedAt).chat.isSessionsLoading = true ∧
      ((p.sendMessage messageText sentAt).deliverTo p.ops.length (some response)
          repliedAt).ops.get? (p.ops.length + 1) =
        some (Op.mk .fetchSessions
          (.awaitingResponse (requestInterceptor p.world fetchSessionsConfig))) ∧
      (((p.sendMessage messageText sentAt).deliverTo p.ops.length (some response)
          repliedAt).deliverTo (p.ops.length + 1) (some listResponse) listedAt).chat.sessions =
        listResponse.rows.getD [] ∧
      (((p.sendMessage messageText sentAt).deliverTo p.ops.length (some response)
          repliedAt).deliverTo (p.ops.length + 1) (some listResponse)
          listedAt).chat.isSessionsLoading = false ∧
      (((p.sendMessage messageText sentAt).deliverTo p.ops.length (some response)
          repliedAt).deliverTo (p.ops.length + 1) (some listResponse)
          listedAt).chat.currentSession =
        some (createdSession (JsObj.get data "session_id") p.chat.uploadedFile) ∧
      (((p.sendMessage messageText sentAt).deliverTo p.ops.length (some response)
          repliedAt).deliverTo (p.ops.length + 1) none listedAt).chat.sessions =
        p.chat.sessions ∧
      (((p.sendMessage messageText sentAt).deliverTo p.ops.length (some response)
          repliedAt).deliverTo (p.ops.length + 1) none listedAt).chat.isSessionsLoading =
        false) ∧
    ((sessionIdOf p.chat.currentSession).truthy = true →
      ((p.sendMessage messageText sentAt).deliverTo p.ops.length (some response)
          repliedAt).chat.currentSession = p.chat.currentSession ∧
      ((p.sendMessage messageText sentAt).deliverTo p.ops.length (some response)
          repliedAt).chat.sessions = p.chat.sessions ∧
      ((p.sendMessage messageText sentAt).deliverTo p.ops.length (some response)
          repliedAt).chat.isSessionsLoading = p.chat.isSessionsLoading ∧
      ((p.sendMessage messageText sentAt).deliverTo p.ops.length (some response)
          repliedAt).world.trace =
        p.world.trace ++ [firstCall p.world (chatConfig messageText p.chat.currentSession)] ∧
      ((p.sendMessage messageText sentAt).deliverTo p.ops.length (some response)
          repliedAt).ops =
        p.ops ++ [Op.mk (.sendMessage p.chat.currentSession p.chat.uploadedFile)
          (.settled (.fulfilled response (requestInterceptor p.world
            (chatConfig messageText p.chat.currentSession))))]) ∧
    (∀ (replies : List Reply) (sent : Config),
      (authAxiosRun p.world (chatConfig messageText p.chat.currentSession) replies).2 =
        .settled (.fulfilled response sent) →
      ((sessionIdOf p.chat.currentSession).truthy = false →
        sessionIdOf (sendMessage p.world p.chat messageText sentAt repliedAt
          replies).2.1.currentSession = JsObj.get data "session_id" ∧
        (sendMessage p.world p.chat messageText sentAt repliedAt replies).1.trace =
          (authAxiosRun p.world (chatConfig messageText p.chat.currentSession) replies).1.trace ++
            [firstCall
              (authAxiosRun p.world (chatConfig messageText p.chat.currentSession) replies).1
              fetchSessionsConfig]) ∧
      ((sessionIdOf p.chat.currentSession).truthy = true →
        (sendMessage p.world p.chat messageText sentAt repliedAt replies).2.1.currentSession =
          p.chat.currentSession ∧
        (sendMessage p.world p.chat messageText sentAt repliedAt replies).1 =
          (authAxiosRun p.world (chatConfig messageText p.chat.currentSession) replies).1 ∧
        (sendMessage p.world p.chat messageText sentAt repliedAt replies).2.1.sessions =
          p.chat.sessions)) := by
  refine ⟨?_, ?_, ?_⟩
  · intro hnone
    obtain ⟨spent, hlen, hp2⟩ := sendMessage_created p messageText sentAt repliedAt response
      data htext hok hdata hsid hnone
    have hget : (spent ++ [Op.mk .fetchSessions
        (.awaitingResponse (requestInterceptor p.world fetchSessionsConfig))]).get?
        (p.ops.length + 1) = some (Op.mk .fetchSessions
        (.awaitingResponse (requestInterceptor p.world fetchSessionsConfig))) := by
      rw [← hlen]
      exact get?_last _ _
    rw [hp2]
    refine ⟨rfl, sessionIdOf_createdSession _ _, rfl, rfl, hget, ?_, ?_, ?_, ?_, ?_⟩
    · rw [deliverTo_success _ (p.ops.length + 1) _ _ listResponse listedAt hget hlist]
      rfl
    · rw [deliverTo_success _ (p.ops.length + 1) _ _ listResponse listedAt hget hlist]
      rfl
    · rw [deliverTo_success _ (p.ops.length + 1) _ _ listResponse listedAt hget hlist]
      rfl
    · rw [deliverTo_noReply _ (p.ops.length + 1) _ _ listedAt hget]
      rfl
    · rw [deliverTo_noReply _ (p.ops.length + 1) _ _ listedAt hget]
      rfl
  · intro hsome
    rw [sendMessage_existing p messageText sentAt repliedAt response data htext hok hdata hsome]
    exact ⟨rfl, rfl, rfl, rfl, rfl⟩
  · intro replies sent hrun
    have h := sendMessage_run_assigns_session p.world p.chat messageText sentAt repliedAt
      replies response sent data htext hrun hdata hsid
    exact ⟨fun hnone => ⟨(h.1 hnone).2.1, (h.1 hnone).2.2.1⟩,
      fun hsome => ⟨(h.2 hsome).1, (h.2 hsome).2.1, (h.2 hsome).2.2.2⟩⟩

/-- A witness of C19: the round trip of the specification ends in the session `abc`, and the
list that then arrives is shown. -/
theorem created_session_is_assigned_and_list_refetched_witness :
    sessionIdOf (((({ world := signedIn, chat := readyChat } : Page).sendMessage "ابو"
        sentClock).deliverTo 0 (some answerReply) repliedClock).chat.currentSession) =
      JsObj.get [("answer", .str "جواب"), ("session_id", .str "abc")] "session_id" ∧
    (((({ world := signedIn, chat := readyChat } : Page).sendMessage "ابو"
        sentClock).deliverTo 0 (some answerReply) repliedClock).deliverTo 1
        (some sessionListReply) repliedClock).chat.sessions = sessionListReply.rows.getD [] :=
  have h := (created_session_is_assigned_and_list_refetched
    ({ world := signedIn, chat := readyChat } : Page) "ابو" sentClock repliedClock repliedClock
    answerReply sessionListReply [("answer", .str "جواب"), ("session_id", .str "abc")]
    (by decide) (by decide) rfl (by decide) (by decide)).1 (by decide)
  ⟨h.2.1, h.2.2.2.2.2.1⟩


/-! ## The gate after a switch to a session without a document -/

/-- C22, the failing case: a document is uploaded, which opens the gate, and then a session
is loaded whose details carry no `collection_name` and which has no messages.  `uploadedFile`
is the absent `collection_name` and the text input and the Send button are disabled, but the
messages area shows the suggestion cards, and a click on one dispatches a chat request: the
gate is not closed. -/
theorem unbound_session_leaves_gate_open :
    unboundSessionPage.chat.uploadedFile = .undefined ∧
    sessionIdOf unboundSessionPage.chat.currentSession = .str "s1" ∧
    inputDisabled unboundSessionPage.chat = true ∧
    sendDisabled unboundSessionPage.chat = true ∧
    pane unboundSessionPage.chat = .suggestions ∧
    chatCalls unboundSessionPage.world.trace = 0 ∧
    chatCalls (unboundSessionPage.clickSuggestion 0 repliedClock).world.trace = 1 := by
  decide

end UrduWhiz
